import Mathlib

set_option autoImplicit false

/-!
# Verification of the quiz-lifecycle subsystem of Chatbot-KHCN

Shallow embedding of the quiz storage (`src/tools/quiz_storage.py`), the
submission manager (`src/tools/submission_manager.py`), the agent dispatch
(`query.py`, `SimpleAgent.query`) and the submission API endpoint
(`src/api/app.py`, `POST /api/submission/submit`).

Python strings are modelled as `List Char` (a faithful model of a Python
string as a sequence of code points).  Python `dict`s keyed by `int` are
modelled as association lists with replace-or-append assignment.  The
SQLite tables are modelled as in-memory lists of rows; `datetime.now()` is
modelled by passing the current calendar day explicitly.
-/

namespace ChatbotKHCN

/-! ## Python string primitives

Each `py*` definition models the behaviour of the corresponding Python
`str` method on the inputs the program feeds it.  `pyLowerChar`/`pyUpperChar`
model `str.lower`/`str.upper` on the ASCII range (the program only ever
case-converts ASCII answer letters and keywords that are already lowercase).
-/

def pyIsSpace (c : Char) : Bool :=
  c == ' ' || c == '\t' || c == '\n' || c == '\r' ||
    c == Char.ofNat 11 || c == Char.ofNat 12

/-- Python `str.strip()`: drop leading and trailing whitespace. -/
def pyStrip (cs : List Char) : List Char :=
  ((cs.dropWhile pyIsSpace).reverse.dropWhile pyIsSpace).reverse

/-- Helper for `pySplitChar`: prepend a character to the first piece. -/
def consHead (c : Char) : List (List Char) → List (List Char)
  | [] => [[c]]
  | t :: ts => (c :: t) :: ts

/-- Python `str.split(sep)` for a one-character separator: keeps empty
pieces, and `"".split(sep) == [""]`. -/
def pySplitChar (sep : Char) : List Char → List (List Char)
  | [] => [[]]
  | c :: cs =>
    if c == sep then [] :: pySplitChar sep cs
    else consHead c (pySplitChar sep cs)

def pyLowerChar (c : Char) : Char :=
  if 'A' ≤ c ∧ c ≤ 'Z' then Char.ofNat (c.toNat + 32) else c

def pyUpperChar (c : Char) : Char :=
  if 'a' ≤ c ∧ c ≤ 'z' then Char.ofNat (c.toNat - 32) else c

def pyLower (cs : List Char) : List Char := cs.map pyLowerChar

def pyUpper (cs : List Char) : List Char := cs.map pyUpperChar

/-- Python substring test `needle in hay`. -/
def pyIn (needle hay : List Char) : Bool :=
  hay.tails.any (fun t => needle.isPrefixOf t)

def digitsVal (ds : List Char) : Nat :=
  ds.foldl (fun a c => 10 * a + (c.toNat - 48)) 0

/-- Python `int(s)`: strips whitespace, accepts an optional sign followed by
decimal digits, raises `ValueError` (here: `none`) otherwise. -/
def pyInt? (cs : List Char) : Option Int :=
  match pyStrip cs with
  | '-' :: ds =>
    if ds ≠ [] ∧ ds.all Char.isDigit then some (-(digitsVal ds : Int)) else none
  | '+' :: ds =>
    if ds ≠ [] ∧ ds.all Char.isDigit then some (digitsVal ds : Int) else none
  | ds =>
    if ds ≠ [] ∧ ds.all Char.isDigit then some (digitsVal ds : Int) else none

/-! ## Python dicts keyed by `int` -/

/-- Python dict assignment `d[k] = v`: overwrite in place or append. -/
def dictInsert (d : List (Int × List Char)) (k : Int) (v : List Char) :
    List (Int × List Char) :=
  if d.any (fun p => p.1 == k) then
    d.map (fun p => if p.1 == k then (k, v) else p)
  else
    d ++ [(k, v)]

/-- Python `d.get(k)`: `some` value or `none` (Python `None`). -/
def dictGet? (d : List (Int × List Char)) (k : Int) : Option (List Char) :=
  (d.find? (fun p => p.1 == k)).map (·.2)

/-! ## `SubmissionManager.grade_submission`
(`src/tools/submission_manager.py`, lines 78-120)

The source parses the answer key and then the student answers into dicts
(`{int(num): ans.strip().upper()}` for items with exactly two `-`-separated
parts), then counts questions `1..10` where `student_dict.get(i) ==
correct_dict.get(i)`.  The whole body is wrapped in `try/except` returning
`0.0`, triggered exactly when some `int(num)` raises.  Note that Python
`None == None` is `True`, so the comparison also matches when a question is
missing from both dicts.
-/

/-- One iteration of the parsing loop over `s.split(',')`; `none` models the
`ValueError` that `int(num)` raises on a non-numeric number part. -/
def parseItem (d : List (Int × List Char)) (item : List Char) :
    Option (List (Int × List Char)) :=
  match pySplitChar '-' (pyStrip item) with
  | [num, ans] =>
    match pyInt? num with
    | some n => some (dictInsert d n (pyUpper (pyStrip ans)))
    | none => none
  | _ => some d

def parseAnswerDict (cs : List Char) : Option (List (Int × List Char)) :=
  (pySplitChar ',' cs).foldlM parseItem []

/-- `for i in range(1, 11)` -/
def questionRange : List Int := [1, 2, 3, 4, 5, 6, 7, 8, 9, 10]

/-- The comparison loop of `grade_submission` over the two parsed dicts. -/
def gradeCore (sk ck : List (Int × List Char)) : Nat :=
  questionRange.countP (fun i => dictGet? sk i == dictGet? ck i)

/-- `SubmissionManager.grade_submission`.  The score is `float(correct_count)`
in the source, an exact integer in `[0, 10]`; we return that integer. -/
def grade_submission (student_answers answer_key : List Char) : Nat :=
  match parseAnswerDict answer_key with
  | none => 0
  | some ck =>
    match parseAnswerDict student_answers with
    | none => 0
    | some sk => gradeCore sk ck

example : grade_submission "1-A,2-B".data "1-A,2-B".data = 10 := by decide

example :
    grade_submission
      "1-A,2-B,3-C,4-D,5-A,6-B,7-C,8-D,9-A,10-B".data
      "1-A,2-B,3-C,4-D,5-A,6-B,7-C,8-D,9-A,10-C".data = 9 := by decide

example : grade_submission "1-a, 2-b".data "1-A,2-B,3-C".data = 9 := by decide

example : grade_submission "1-A,z-B".data "1-A,2-B".data = 0 := by decide

/-! ## Structured answer scripts

An answer key (per the data model of the spec, §3) maps each question
`1..10` to an option letter `A..D`.  `encAnswers` renders such a total
assignment in the `"1-A,2-B,...,10-D"` wire format that
`grade_submission` consumes. -/

inductive Letter where
  | A | B | C | D
  deriving DecidableEq, BEq

def letterChar : Letter → Char
  | .A => 'A'
  | .B => 'B'
  | .C => 'C'
  | .D => 'D'

def numTok : Fin 10 → List Char
  | ⟨0, _⟩ => ['1']
  | ⟨1, _⟩ => ['2']
  | ⟨2, _⟩ => ['3']
  | ⟨3, _⟩ => ['4']
  | ⟨4, _⟩ => ['5']
  | ⟨5, _⟩ => ['6']
  | ⟨6, _⟩ => ['7']
  | ⟨7, _⟩ => ['8']
  | ⟨8, _⟩ => ['9']
  | ⟨9, _⟩ => ['1', '0']
  | ⟨n + 10, h⟩ => absurd h (by omega)

def encItem (j : Fin 10) (l : Letter) : List Char :=
  numTok j ++ '-' :: [letterChar l]

def joinComma : List (List Char) → List Char
  | [] => []
  | [x] => x
  | x :: y :: xs => x ++ ',' :: joinComma (y :: xs)

def encAnswers (a : Fin 10 → Letter) : List Char :=
  joinComma
    [encItem 0 (a 0), encItem 1 (a 1), encItem 2 (a 2), encItem 3 (a 3),
     encItem 4 (a 4), encItem 5 (a 5), encItem 6 (a 6), encItem 7 (a 7),
     encItem 8 (a 8), encItem 9 (a 9)]

example : encAnswers (fun _ => Letter.A) = "1-A,2-A,3-A,4-A,5-A,6-A,7-A,8-A,9-A,10-A".data := by
  decide

/-! ### Computing the parser on encoded scripts -/

theorem pySplitChar_sep_append {sep : Char} {xs : List Char} (ys : List Char)
    (h : sep ∉ xs) :
    pySplitChar sep (xs ++ sep :: ys) = xs :: pySplitChar sep ys := by
  induction xs with
  | nil => simp [pySplitChar]
  | cons c cs ih =>
    have hc : ¬(c == sep) = true := by
      simp only [beq_iff_eq]
      rintro rfl
      exact h (List.mem_cons_self _ _)
    have hcs : sep ∉ cs := fun hm => h (List.mem_cons_of_mem _ hm)
    simp only [List.cons_append, pySplitChar, if_neg hc, List.append_eq, ih hcs, consHead]

theorem pySplitChar_no_sep {sep : Char} {xs : List Char} (h : sep ∉ xs) :
    pySplitChar sep xs = [xs] := by
  induction xs with
  | nil => rfl
  | cons c cs ih =>
    have hc : ¬(c == sep) = true := by
      simp only [beq_iff_eq]
      rintro rfl
      exact h (List.mem_cons_self _ _)
    have hcs : sep ∉ cs := fun hm => h (List.mem_cons_of_mem _ hm)
    simp only [pySplitChar, if_neg hc, ih hcs, consHead]

theorem comma_notin_encItem (j : Fin 10) (l : Letter) : ',' ∉ encItem j l := by
  fin_cases j <;> cases l <;> decide

theorem strip_encItem (j : Fin 10) (l : Letter) :
    pyStrip (encItem j l) = encItem j l := by
  fin_cases j <;> cases l <;> decide

theorem dash_notin_numTok (j : Fin 10) : '-' ∉ numTok j := by
  fin_cases j <;> decide

theorem int_numTok (j : Fin 10) : pyInt? (numTok j) = some ((j : Nat) + 1 : Int) := by
  fin_cases j <;> decide

theorem letterChar_ne_dash (l : Letter) : letterChar l ≠ '-' := by
  cases l <;> decide

theorem upper_letterChar (l : Letter) :
    pyUpper (pyStrip [letterChar l]) = [letterChar l] := by
  cases l <;> decide

theorem parseItem_clean (num : List Char) (c : Char) (d : List (Int × List Char))
    (n : Int)
    (hstrip : pyStrip (num ++ '-' :: [c]) = num ++ '-' :: [c])
    (hdash : '-' ∉ num) (hc : c ≠ '-')
    (hint : pyInt? num = some n)
    (hans : pyUpper (pyStrip [c]) = [c]) :
    parseItem d (num ++ '-' :: [c]) = some (dictInsert d n [c]) := by
  have hsplit : pySplitChar '-' (num ++ '-' :: [c]) = [num, [c]] := by
    rw [pySplitChar_sep_append _ hdash,
      pySplitChar_no_sep (by simpa using fun hh => hc hh.symm)]
  unfold parseItem
  rw [hstrip, hsplit]
  simp only [hint, hans]

theorem parseItem_encItem (j : Fin 10) (l : Letter) (d : List (Int × List Char)) :
    parseItem d (encItem j l) = some (dictInsert d ((j : Nat) + 1 : Int) [letterChar l]) := by
  unfold encItem
  exact parseItem_clean _ _ _ _ (strip_encItem j l) (dash_notin_numTok j)
    (letterChar_ne_dash l) (int_numTok j) (upper_letterChar l)

/-- The dict that `grade_submission` builds from `encAnswers a`. -/
def encDict (a : Fin 10 → Letter) : List (Int × List Char) :=
  [(1, [letterChar (a 0)]), (2, [letterChar (a 1)]), (3, [letterChar (a 2)]),
   (4, [letterChar (a 3)]), (5, [letterChar (a 4)]), (6, [letterChar (a 5)]),
   (7, [letterChar (a 6)]), (8, [letterChar (a 7)]), (9, [letterChar (a 8)]),
   (10, [letterChar (a 9)])]

set_option maxHeartbeats 1000000 in
theorem parse_encAnswers (a : Fin 10 → Letter) :
    parseAnswerDict (encAnswers a) = some (encDict a) := by
  have hsplit : pySplitChar ',' (encAnswers a) =
      [encItem 0 (a 0), encItem 1 (a 1), encItem 2 (a 2), encItem 3 (a 3),
       encItem 4 (a 4), encItem 5 (a 5), encItem 6 (a 6), encItem 7 (a 7),
       encItem 8 (a 8), encItem 9 (a 9)] := by
    simp only [encAnswers, joinComma]
    rw [pySplitChar_sep_append _ (comma_notin_encItem 0 (a 0)),
      pySplitChar_sep_append _ (comma_notin_encItem 1 (a 1)),
      pySplitChar_sep_append _ (comma_notin_encItem 2 (a 2)),
      pySplitChar_sep_append _ (comma_notin_encItem 3 (a 3)),
      pySplitChar_sep_append _ (comma_notin_encItem 4 (a 4)),
      pySplitChar_sep_append _ (comma_notin_encItem 5 (a 5)),
      pySplitChar_sep_append _ (comma_notin_encItem 6 (a 6)),
      pySplitChar_sep_append _ (comma_notin_encItem 7 (a 7)),
      pySplitChar_sep_append _ (comma_notin_encItem 8 (a 8)),
      pySplitChar_no_sep (comma_notin_encItem 9 (a 9))]
  unfold parseAnswerDict
  rw [hsplit]
  simp only [List.foldlM_cons, List.foldlM_nil, parseItem_encItem,
    Option.bind_eq_bind, Option.pure_def, Option.bind]
  rfl

/-- Number of questions on which two total answer assignments agree. -/
def matchCount (s k : Fin 10 → Letter) : Nat :=
  (List.finRange 10).countP (fun j => decide (s j = k j))

theorem gradeCore_enc (s k : Fin 10 → Letter) :
    gradeCore (encDict s) (encDict k) = matchCount s k := by
  have e : ∀ x y : Letter,
      ((some [letterChar x] : Option (List Char)) == some [letterChar y]) = decide (x = y) := by
    intro x y
    cases x <;> cases y <;> rfl
  have hfin : List.finRange 10 = ([0, 1, 2, 3, 4, 5, 6, 7, 8, 9] : List (Fin 10)) := rfl
  unfold gradeCore matchCount questionRange
  rw [hfin]
  simp only [List.countP_cons, List.countP_nil]
  simp only [show dictGet? (encDict s) 1 = some [letterChar (s 0)] from rfl,
    show dictGet? (encDict s) 2 = some [letterChar (s 1)] from rfl,
    show dictGet? (encDict s) 3 = some [letterChar (s 2)] from rfl,
    show dictGet? (encDict s) 4 = some [letterChar (s 3)] from rfl,
    show dictGet? (encDict s) 5 = some [letterChar (s 4)] from rfl,
    show dictGet? (encDict s) 6 = some [letterChar (s 5)] from rfl,
    show dictGet? (encDict s) 7 = some [letterChar (s 6)] from rfl,
    show dictGet? (encDict s) 8 = some [letterChar (s 7)] from rfl,
    show dictGet? (encDict s) 9 = some [letterChar (s 8)] from rfl,
    show dictGet? (encDict s) 10 = some [letterChar (s 9)] from rfl,
    show dictGet? (encDict k) 1 = some [letterChar (k 0)] from rfl,
    show dictGet? (encDict k) 2 = some [letterChar (k 1)] from rfl,
    show dictGet? (encDict k) 3 = some [letterChar (k 2)] from rfl,
    show dictGet? (encDict k) 4 = some [letterChar (k 3)] from rfl,
    show dictGet? (encDict k) 5 = some [letterChar (k 4)] from rfl,
    show dictGet? (encDict k) 6 = some [letterChar (k 5)] from rfl,
    show dictGet? (encDict k) 7 = some [letterChar (k 6)] from rfl,
    show dictGet? (encDict k) 8 = some [letterChar (k 7)] from rfl,
    show dictGet? (encDict k) 9 = some [letterChar (k 8)] from rfl,
    show dictGet? (encDict k) 10 = some [letterChar (k 9)] from rfl,
    e]

theorem grade_encAnswers (s k : Fin 10 → Letter) :
    grade_submission (encAnswers s) (encAnswers k) = matchCount s k := by
  unfold grade_submission
  rw [parse_encAnswers k, parse_encAnswers s]
  exact gradeCore_enc s k

theorem countP_flip {α : Type} [DecidableEq α] (l : List α) (p q : α → Bool) (j : α)
    (hnd : l.Nodup) (hj : j ∈ l) (hq : q j = false) (hp : p j = true)
    (hagree : ∀ x ∈ l, x ≠ j → q x = p x) :
    l.countP q + 1 = l.countP p := by
  induction l with
  | nil => cases hj
  | cons c cs ih =>
    rcases List.mem_cons.mp hj with hcj | hjs
    · subst hcj
      have hnotin : j ∉ cs := (List.nodup_cons.mp hnd).1
      have heq : cs.countP q = cs.countP p := by
        apply List.countP_congr
        intro x hx
        rw [hagree x (List.mem_cons_of_mem _ hx) (fun e => hnotin (e ▸ hx))]
      simp [List.countP_cons, hq, hp, heq]
    · have hc : c ≠ j := by
        rintro rfl
        exact (List.nodup_cons.mp hnd).1 hjs
      have hrec := ih (List.nodup_cons.mp hnd).2 hjs
        (fun x hx hne => hagree x (List.mem_cons_of_mem _ hx) hne)
      simp only [List.countP_cons, hagree c (List.mem_cons_self _ _) hc]
      cases hpc : p c <;> simp <;> omega

theorem grade_empty (k : Fin 10 → Letter) :
    grade_submission [] (encAnswers k) = 0 := by
  unfold grade_submission
  rw [parse_encAnswers k]
  rfl

/-- **C1** (grading correctness of `grade_submission`, spec property P3):
grading a submission identical to the (complete, per the data model of §3)
answer key scores 10; empty student answers against any answer key score 0;
and flipping a single previously-correct submitted answer decreases the
score by exactly 1. -/
theorem C1_grading_correctness :
    (∀ a : Fin 10 → Letter,
        grade_submission (encAnswers a) (encAnswers a) = 10)
    ∧ (∀ k : Fin 10 → Letter, grade_submission [] (encAnswers k) = 0)
    ∧ (∀ a k : Fin 10 → Letter, ∀ j : Fin 10, ∀ l2 : Letter,
        a j = k j → l2 ≠ a j →
        grade_submission (encAnswers (Function.update a j l2)) (encAnswers k) + 1
          = grade_submission (encAnswers a) (encAnswers k)) := by
  refine ⟨?_, grade_empty, ?_⟩
  · intro a
    rw [grade_encAnswers]
    unfold matchCount
    rw [List.countP_eq_length.mpr (fun x _ => by exact decide_eq_true rfl)]
    simp [List.length_finRange]
  · intro a k j l2 hjk hne
    rw [grade_encAnswers, grade_encAnswers]
    unfold matchCount
    have hne2 : l2 ≠ k j := fun e => hne (by rw [hjk]; exact e)
    apply countP_flip _ _ _ j (List.nodup_finRange 10) (List.mem_finRange j)
    · show decide (Function.update a j l2 j = k j) = false
      rw [Function.update_same]
      exact decide_eq_false hne2
    · show decide (a j = k j) = true
      exact decide_eq_true hjk
    · intro x _ hxj
      show decide (Function.update a j l2 x = k x) = decide (a x = k x)
      rw [Function.update_noteq hxj]

theorem C1_grading_correctness_witness :
    ((fun _ => Letter.A) (0 : Fin 10) = (fun _ => Letter.A) (0 : Fin 10))
    ∧ Letter.B ≠ (fun _ => Letter.A) (0 : Fin 10)
    ∧ grade_submission (encAnswers (Function.update (fun _ => Letter.A) 0 Letter.B))
        (encAnswers (fun _ => Letter.A)) + 1
      = grade_submission (encAnswers (fun _ => Letter.A))
          (encAnswers (fun _ => Letter.A)) :=
  ⟨rfl, by decide, C1_grading_correctness.2.2 _ _ 0 Letter.B rfl (by decide)⟩

/-! ## C2: missing and malformed entries in `grade_submission`

The claim fails on the code in two ways.  First, `student_dict.get(i) ==
correct_dict.get(i)` is `None == None`, i.e. `True`, when question `i` is
missing from **both** inputs, so such questions count as matches:
`grade_submission "1-A" "1-A" = 10` (questions 2..10 are missing on both
sides).  Second, an entry whose number part is not an integer makes
`int(num)` raise; the exception is caught by the surrounding `try` and the
**whole** call returns `0`, so well-formed entries in the same input are
not graded: `grade_submission "1-A,x-B" <full key> = 0` although entry
`1-A` matches the key. -/

/-- **C2 counterexample**: the claim predicts score 1 in both cases; the
code returns 10 and 0 respectively. -/
theorem C2_counterexample :
    grade_submission "1-A".data "1-A".data = 10
    ∧ grade_submission "1-A,x-B".data
        "1-A,2-B,3-C,4-D,5-A,6-B,7-C,8-D,9-A,10-D".data = 0 := by
  constructor <;> decide

theorem countP_erase_of_not {α : Type} [DecidableEq α] (l : List α) (p : α → Bool)
    (i : α) (hpi : p i = false) :
    (l.erase i).countP p = l.countP p := by
  induction l with
  | nil => rfl
  | cons c cs ih =>
    by_cases hci : c = i
    · subst hci
      rw [List.erase_cons_head, List.countP_cons, hpi]
      simp
    · rw [List.erase_cons_tail (by simp [hci]), List.countP_cons, List.countP_cons, ih]

theorem parseItem_skip (d : List (Int × List Char)) (item : List Char)
    (hlen : (pySplitChar '-' (pyStrip item)).length ≠ 2) :
    parseItem d item = some d := by
  unfold parseItem
  rcases h : pySplitChar '-' (pyStrip item) with _ | ⟨x, _ | ⟨y, _ | ⟨z, t⟩⟩⟩
  · rfl
  · rfl
  · rw [h] at hlen; simp at hlen
  · rfl

theorem parse_skip_head (s item : List Char) (hc : ',' ∉ item)
    (hlen : (pySplitChar '-' (pyStrip item)).length ≠ 2) :
    parseAnswerDict (item ++ ',' :: s) = parseAnswerDict s := by
  unfold parseAnswerDict
  rw [pySplitChar_sep_append _ hc, List.foldlM_cons, parseItem_skip _ _ hlen]
  rfl

theorem parse_abort (s num ans : List Char) (hcn : ',' ∉ num) (hca : ',' ∉ ans)
    (hdn : '-' ∉ num) (hda : '-' ∉ ans)
    (hint : pyInt? num = none)
    (hstrip : pyStrip (num ++ '-' :: ans) = num ++ '-' :: ans) :
    parseAnswerDict ((num ++ '-' :: ans) ++ ',' :: s) = none := by
  have hcomma : ',' ∉ num ++ '-' :: ans := by
    intro hm
    rcases List.mem_append.mp hm with h1 | h1
    · exact hcn h1
    · rcases List.mem_cons.mp h1 with h2 | h2
      · cases h2
      · exact hca h2
  unfold parseAnswerDict
  rw [pySplitChar_sep_append _ hcomma, List.foldlM_cons]
  have hitem : parseItem [] (num ++ '-' :: ans) = none := by
    unfold parseItem
    rw [hstrip, pySplitChar_sep_append _ hdn, pySplitChar_no_sep hda]
    show (match pyInt? num with
      | some n => some (dictInsert [] n (pyUpper (pyStrip ans)))
      | none => none) = none
    rw [hint]
  rw [hitem]
  rfl

/-- **C2 amended**: a question missing from exactly one of the two inputs
never counts as a match (dropping it from the 1..10 loop leaves the score
unchanged); an entry that does not split into exactly two `-`-separated
parts is skipped without an exception and the remaining entries are graded
normally; but an entry whose number part is not a valid integer causes the
whole grading call to return 0 (its `ValueError` is caught by the
surrounding `try`). -/
theorem C2_missing_and_malformed :
    (∀ (s k : List Char) (ds dk : List (Int × List Char)) (i : Int),
        parseAnswerDict s = some ds → parseAnswerDict k = some dk →
        (dictGet? ds i).isSome ≠ (dictGet? dk i).isSome →
        grade_submission s k =
          (questionRange.erase i).countP (fun n => dictGet? ds n == dictGet? dk n))
    ∧ (∀ (s k item : List Char), ',' ∉ item →
        (pySplitChar '-' (pyStrip item)).length ≠ 2 →
        grade_submission (item ++ ',' :: s) k = grade_submission s k)
    ∧ (∀ (s k num ans : List Char), ',' ∉ num → ',' ∉ ans →
        '-' ∉ num → '-' ∉ ans → pyInt? num = none →
        pyStrip (num ++ '-' :: ans) = num ++ '-' :: ans →
        grade_submission ((num ++ '-' :: ans) ++ ',' :: s) k = 0) := by
  refine ⟨?_, ?_, ?_⟩
  · intro s k ds dk i hs hk hmis
    have hpi : (dictGet? ds i == dictGet? dk i) = false := by
      rcases h1 : dictGet? ds i with _ | v1 <;> rcases h2 : dictGet? dk i with _ | v2 <;>
        rw [h1, h2] at hmis <;> simp_all
    unfold grade_submission
    rw [hk, hs]
    show gradeCore ds dk =
      (questionRange.erase i).countP (fun n => dictGet? ds n == dictGet? dk n)
    unfold gradeCore
    rw [← countP_erase_of_not questionRange _ i hpi]
  · intro s k item hc hlen
    unfold grade_submission
    rw [parse_skip_head s item hc hlen]
  · intro s k num ans hcn hca hdn hda hint hstrip
    unfold grade_submission
    rw [parse_abort s num ans hcn hca hdn hda hint hstrip]
    rcases parseAnswerDict k with _ | ck <;> rfl

theorem C2_missing_and_malformed_witness :
    (parseAnswerDict "1-A".data = some [(1, ['A'])]
      ∧ parseAnswerDict "2-B".data = some [(2, ['B'])]
      ∧ (dictGet? [(1, ['A'])] 1).isSome ≠ (dictGet? [(2, ['B'])] 1).isSome
      ∧ grade_submission "1-A".data "2-B".data =
          (questionRange.erase 1).countP
            (fun n => dictGet? [(1, ['A'])] n == dictGet? [(2, ['B'])] n))
    ∧ grade_submission ("xyz".data ++ ',' :: "1-A".data) "1-A".data
        = grade_submission "1-A".data "1-A".data
    ∧ grade_submission (("q".data ++ '-' :: "B".data) ++ ',' :: "1-A".data) "1-A".data = 0 :=
  ⟨⟨by decide, by decide, by decide,
      C2_missing_and_malformed.1 "1-A".data "2-B".data _ _ 1
        (by decide) (by decide) (by decide)⟩,
    C2_missing_and_malformed.2.1 "1-A".data "1-A".data "xyz".data
      (by decide) (by decide),
    C2_missing_and_malformed.2.2 "1-A".data "1-A".data "q".data "B".data
      (by decide) (by decide) (by decide) (by decide) (by decide) (by decide)⟩

/-! ## Intent detection and answer extraction (`query.py`)

The agent's heuristics are keyword containment checks on the lowered
message, plus regular-expression searches.  The regexes used by the source
(`(\d+)\s*-?\s*([A-D])` with `IGNORECASE`, `(\d+\s*-\s*[A-D]\s*,?\s*){5,}`,
and the three quiz-request patterns) are backtracking-free on their
character classes (every alternation has alternatives with distinct first
characters, and no optional or starred element can consume a character that
the following element accepts), so each is modelled by a deterministic
greedy matcher, with `re.search`/`re.findall` position scanning modelled
over `List.tails`. -/

def isAnsLetter (c : Char) : Bool :=
  c == 'A' || c == 'B' || c == 'C' || c == 'D' ||
    c == 'a' || c == 'b' || c == 'c' || c == 'd'

/-- The `\s*-?\s*` part: skip an optional dash (and the spaces after it). -/
def dashSkip (r2 : List Char) : List Char :=
  match r2 with
  | c :: t => if c == '-' then t.dropWhile pyIsSpace else r2
  | [] => r2

/-- The final `[A-Da-d]` character of a pair match. -/
def letterOut (digits r3 : List Char) :
    Option ((List Char × Char) × List Char) :=
  match r3 with
  | c :: rest => if isAnsLetter c then some ((digits, c), rest) else none
  | [] => none

/-- One match attempt of `(\d+)\s*-?\s*([A-D])` (IGNORECASE) at the head of
the input: greedy digits, optional spaces, optional dash, optional spaces,
one answer letter.  Returns the two groups and the rest of the input. -/
def tryPair (cs : List Char) : Option ((List Char × Char) × List Char) :=
  let digits := cs.takeWhile Char.isDigit
  if digits.isEmpty then none
  else letterOut digits (dashSkip ((cs.dropWhile Char.isDigit).dropWhile pyIsSpace))

/-- `re.findall` scanning loop: try a match at each position, resuming after
each match.  `fuel` only forces termination; it is always called with
`fuel ≥ length`. -/
def scanGo : Nat → List Char → List (List Char × Char)
  | 0, _ => []
  | _ + 1, [] => []
  | fuel + 1, c :: cs =>
    match tryPair (c :: cs) with
    | some (p, rest) => p :: scanGo fuel rest
    | none => scanGo fuel cs

def scanPairs (cs : List Char) : List (List Char × Char) :=
  scanGo cs.length cs

/-- Python `s.replace(needle, "")` for a non-empty needle (the source only
replaces non-empty keywords). -/
def pyReplaceDel : List Char → Nat → List Char → List Char
  | _, 0, hay => hay
  | _, _ + 1, [] => []
  | needle, fuel + 1, c :: cs =>
    if needle ≠ [] ∧ needle.isPrefixOf (c :: cs) then
      pyReplaceDel needle fuel ((c :: cs).drop needle.length)
    else
      c :: pyReplaceDel needle fuel cs

def pyReplaceEmpty (needle hay : List Char) : List Char :=
  pyReplaceDel needle hay.length hay

/-- The keywords stripped by `_extract_answers` before pair extraction
(query.py line 485); each one contains a colon. -/
def removalKeywords : List (List Char) :=
  ["nộp bài:".data, "nộp:".data, "submit:".data, "đáp án:".data, "kết quả:".data]

/-- The keyword-removal loop of `_extract_answers`: each iteration lowers
the accumulator and deletes one keyword. -/
def removeKeywords (msg : List Char) : List Char :=
  removalKeywords.foldl (fun q kw => pyReplaceEmpty kw (pyLower q)) msg

/-- `SimpleAgent._extract_answers` (query.py lines 469-509): strip
submission keywords, find all `number[-]letter` pairs, require at least 10,
keep the first 10 and render them as `"1-A,2-B,..."` with the letter
uppercased. -/
def extractAnswers (msg : List Char) : Option (List Char) :=
  let ms := scanPairs (removeKeywords msg)
  if ms.length < 10 then none
  else some (joinComma ((ms.take 10).map (fun p => p.1 ++ '-' :: [pyUpperChar p.2])))

/-- Submission keywords of `_should_submit_quiz` (query.py lines 448-454). -/
def submissionKeywords : List (List Char) :=
  ["nộp bài".data, "nộp đề".data, "nộp".data, "submit".data, "answer".data,
   "đáp án".data, "đáp án của em là".data, "đáp án là".data, "kết quả".data,
   "bài làm".data]

/-- One repetition of `\d+\s*-\s*[A-D]\s*,?\s*` (IGNORECASE; the dash is
mandatory here, unlike in `tryPair`). -/
def tryRun1 (cs : List Char) : Option (List Char) :=
  let digits := cs.takeWhile Char.isDigit
  if digits.isEmpty then none
  else
    match (cs.dropWhile Char.isDigit).dropWhile pyIsSpace with
    | d :: t =>
      if d == '-' then
        match t.dropWhile pyIsSpace with
        | c :: rest =>
          if isAnsLetter c then
            let r4 := rest.dropWhile pyIsSpace
            some (match r4 with
              | k :: u => if k == ',' then u.dropWhile pyIsSpace else r4
              | [] => r4)
          else none
        | [] => none
      else none
    | [] => none

def tryRunN : Nat → List Char → Bool
  | 0, _ => true
  | n + 1, cs =>
    match tryRun1 cs with
    | some rest => tryRunN n rest
    | none => false

/-- `re.search(r'(\d+\s*-\s*[A-D]\s*,?\s*){5,}', q, re.IGNORECASE)`. -/
def hasAnswerRun (cs : List Char) : Bool :=
  cs.tails.any (fun t => tryRunN 5 t)

/-- `SimpleAgent._should_submit_quiz` (query.py lines 435-467): a submission
keyword in the lowered message, or a run of at least 5 dashed answer pairs
anywhere in the original message. -/
def shouldSubmitQuiz (msg : List Char) : Bool :=
  submissionKeywords.any (fun kw => pyIn kw (pyLower msg)) || hasAnswerRun msg

/-- Quiz-creation keywords of `_should_create_quiz` (query.py lines 388-408). -/
def quizKeywords : List (List Char) :=
  ["tạo đề".data, "ra đề".data, "đề kiểm tra".data, "đề thi".data,
   "bài kiểm tra".data, "quiz".data, "test".data, "trắc nghiệm".data,
   "15 phút".data, "30 phút".data, "kiểm tra".data, "bài thi".data,
   "cho tôi bài".data, "cho em bài".data, "cho mình bài".data,
   "cho tôi đề".data, "cho em đề".data, "cho mình đề".data,
   "tạo bài".data, "ra bài".data, "làm bài".data,
   "muốn bài".data, "cần bài".data, "muốn đề".data, "cần đề".data]

def matchLit (lit cs : List Char) : Option (List Char) :=
  if lit.isPrefixOf cs then some (cs.drop lit.length) else none

def matchAlt : List (List Char) → List Char → Option (List Char)
  | [], _ => none
  | l :: ls, cs =>
    match matchLit l cs with
    | some r => some r
    | none => matchAlt ls cs

/-- An optional alternation group `(x|y)?`. -/
def matchOpt (lits : List (List Char)) (cs : List Char) : List Char :=
  match matchAlt lits cs with
  | some r => r
  | none => cs

/-- `\s+` -/
def skipSpaces1 (cs : List Char) : Option (List Char) :=
  match cs with
  | c :: rest => if pyIsSpace c then some (rest.dropWhile pyIsSpace) else none
  | [] => none

/-- `cho\s+(tôi|em|mình)\s+(một|1)?\s*(bài|đề)` at one position. -/
def matchPat1At (cs : List Char) : Bool :=
  ((matchLit "cho".data cs).bind skipSpaces1
    |>.bind (matchAlt ["tôi".data, "em".data, "mình".data])
    |>.bind skipSpaces1
    |>.map (matchOpt ["một".data, "1".data])
    |>.map (List.dropWhile pyIsSpace)
    |>.bind (matchAlt ["bài".data, "đề".data])).isSome

/-- `(cho\s+)?` -/
def matchOptChoSp (cs : List Char) : List Char :=
  match (matchLit "cho".data cs).bind skipSpaces1 with
  | some r => r
  | none => cs

/-- `(tạo|ra|làm)\s+(cho\s+)?(tôi|em|mình)?\s*(một|1)?\s*(bài|đề)` at one
position. -/
def matchPat2At (cs : List Char) : Bool :=
  ((matchAlt ["tạo".data, "ra".data, "làm".data] cs).bind skipSpaces1
    |>.map matchOptChoSp
    |>.map (matchOpt ["tôi".data, "em".data, "mình".data])
    |>.map (List.dropWhile pyIsSpace)
    |>.map (matchOpt ["một".data, "1".data])
    |>.map (List.dropWhile pyIsSpace)
    |>.bind (matchAlt ["bài".data, "đề".data])).isSome

/-- `(muốn|cần|được)\s+(làm|có)?\s*(bài|đề)` at one position. -/
def matchPat3At (cs : List Char) : Bool :=
  ((matchAlt ["muốn".data, "cần".data, "được".data] cs).bind skipSpaces1
    |>.map (matchOpt ["làm".data, "có".data])
    |>.map (List.dropWhile pyIsSpace)
    |>.bind (matchAlt ["bài".data, "đề".data])).isSome

/-- `SimpleAgent._should_create_quiz` (query.py lines 373-429): keyword
containment on the lowered message, then the three regex patterns. -/
def shouldCreateQuiz (msg : List Char) : Bool :=
  let q := pyLower msg
  quizKeywords.any (fun kw => pyIn kw q) ||
    q.tails.any matchPat1At || q.tails.any matchPat2At || q.tails.any matchPat3At

/-- `SimpleAgent._should_draw_graph` (query.py lines 368-371). -/
def graphKeywords : List (List Char) :=
  ["vẽ đồ thị".data, "vẽ đồ".data, "đồ thị".data, "graph".data, "plot".data,
   "vẽ hàm".data]

def shouldDrawGraph (msg : List Char) : Bool :=
  graphKeywords.any (fun kw => pyIn kw (pyLower msg))

/-- Question and subject keywords of `_should_use_tool` (query.py lines
352-366 and the `SUBJECTS` table). -/
def questionWords : List (List Char) :=
  ["gì".data, "nào".data, "như thế nào".data, "tại sao".data, "là gì".data,
   "?".data]

def subjectWords : List (List Char) :=
  ["vật lý".data, "physics".data, "lực".data, "năng lượng".data, "điện".data,
   "từ".data, "quang".data, "nhiệt".data,
   "hóa học".data, "chemistry".data, "phản ứng".data, "nguyên tố".data,
   "hợp chất".data, "ion".data,
   "sinh học".data, "biology".data, "tế bào".data, "gen".data, "protein".data,
   "DNA".data,
   "toán".data, "math".data, "phương trình".data, "hàm số".data,
   "đồ thị".data, "số học".data]

def shouldUseTool (msg : List Char) : Bool :=
  (questionWords.any (fun kw => pyIn kw (pyLower msg))) &&
    (subjectWords.any (fun kw => pyIn kw (pyLower msg)))

example :
    extractAnswers "Nộp bài: 1-A,2-B,3-C,4-D,5-A,6-B,7-C,8-D,9-A,10-B".data
      = some "1-A,2-B,3-C,4-D,5-A,6-B,7-C,8-D,9-A,10-B".data := by decide

example : extractAnswers "1a 2b 3c 4d 5a 6b 7c 8d 9a 10b 11c 12d".data
      = some "1-A,2-B,3-C,4-D,5-A,6-B,7-C,8-D,9-A,10-B".data := by decide

example : extractAnswers "Nộp bài: 1-A,2-B,3-C".data = none := by decide

example : shouldSubmitQuiz "Nộp bài: 1-A,2-B,3-C".data = true := by decide

example : shouldSubmitQuiz "1-A,2-B,3-C,4-D,5-A,6-B".data = true := by decide

example : shouldSubmitQuiz "tạo đề toán".data = false := by decide

example : shouldCreateQuiz "tạo đề toán".data = true := by decide

example : shouldCreateQuiz "cho em một đề nhé".data = true := by decide

example : shouldCreateQuiz "thời tiết hôm nay".data = false := by decide

/-! ## C10: structured submission scripts

A `PairTok` is one `number[-]letter` answer pair as the student may type
it: a digit token, optional spaces, an optional dash, optional spaces, and
an option letter in either case.  `mkMessage` interleaves pairs with
arbitrary separator text. -/

structure PairTok where
  num : List Char
  s1 : Nat
  dash : Bool
  s2 : Nat
  letter : Char

def mkPair (p : PairTok) : List Char :=
  p.num ++ List.replicate p.s1 ' ' ++ (if p.dash then ['-'] else []) ++
    List.replicate p.s2 ' ' ++ [p.letter]

def mkMessage : List Char → List (PairTok × List Char) → List Char
  | lead, [] => lead
  | lead, (p, sep) :: ps => lead ++ (mkPair p ++ mkMessage sep ps)

theorem ansLetter_facts {c : Char} (h : isAnsLetter c = true) :
    pyIsSpace c = false ∧ Char.isDigit c = false ∧ (c == '-') = false := by
  simp only [isAnsLetter, Bool.or_eq_true, beq_iff_eq] at h
  rcases h with ((((((h | h) | h) | h) | h) | h) | h) | h <;> subst h <;> decide

theorem length_dropWhile_le (p : Char → Bool) (l : List Char) :
    (l.dropWhile p).length ≤ l.length := by
  induction l with
  | nil => simp
  | cons c cs ih =>
    rw [List.dropWhile_cons]
    split
    · simp only [List.length_cons]; omega
    · simp

theorem takeWhile_append2 {p : Char → Bool} (xs ys : List Char)
    (hall : ∀ x ∈ xs, p x = true) (hys : ys.takeWhile p = []) :
    (xs ++ ys).takeWhile p = xs ∧ (xs ++ ys).dropWhile p = ys := by
  induction xs with
  | nil =>
    refine ⟨hys, ?_⟩
    cases ys with
    | nil => rfl
    | cons c cs =>
      rw [List.takeWhile_cons] at hys
      split at hys
      · cases hys
      · simp_all [List.dropWhile_cons]
  | cons c cs ih =>
    have hc := hall c (List.mem_cons_self _ _)
    have ihh := ih (fun x hx => hall x (List.mem_cons_of_mem _ hx))
    simp [List.takeWhile_cons, List.dropWhile_cons, hc, ihh.1, ihh.2]

theorem dropWhile_replicate_space (n : Nat) (z : List Char) :
    (List.replicate n ' ' ++ z).dropWhile pyIsSpace = z.dropWhile pyIsSpace := by
  induction n with
  | zero => simp
  | succ m ih =>
    rw [List.replicate_succ, List.cons_append,
      List.dropWhile_cons_of_pos (by decide)]
    exact ih

theorem head?_replicate_space_append (s : Nat) (z : List Char) :
    (List.replicate s ' ' ++ z).head? = some ' '
      ∨ (List.replicate s ' ' ++ z).head? = z.head? := by
  cases s with
  | zero => right; simp
  | succ m => left; simp [List.replicate_succ]

theorem takeWhile_nil_of_head {p : Char → Bool} {l : List Char}
    (h : ∀ c, l.head? = some c → p c = false) : l.takeWhile p = [] := by
  cases l with
  | nil => rfl
  | cons c cs => exact List.takeWhile_cons_of_neg (by simp [h c rfl])

theorem tryPair_mkPair (num : List Char) (s1 : Nat) (dash : Bool) (s2 : Nat)
    (letter : Char) (rest : List Char)
    (h1 : num ≠ []) (h2 : ∀ c ∈ num, Char.isDigit c = true)
    (h3 : isAnsLetter letter = true) :
    tryPair (mkPair ⟨num, s1, dash, s2, letter⟩ ++ rest)
      = some ((num, letter), rest) := by
  obtain ⟨hsp, hdig, hdash⟩ := ansLetter_facts h3
  have hshape : mkPair ⟨num, s1, dash, s2, letter⟩ ++ rest
      = num ++ (List.replicate s1 ' ' ++ ((if dash then ['-'] else []) ++
          (List.replicate s2 ' ' ++ letter :: rest))) := by
    simp [mkPair, List.append_assoc]
  have htw : (List.replicate s1 ' ' ++ ((if dash then ['-'] else []) ++
      (List.replicate s2 ' ' ++ letter :: rest))).takeWhile Char.isDigit = [] := by
    apply takeWhile_nil_of_head
    intro c hc
    rcases head?_replicate_space_append s1 _ with h | h
    · rw [h] at hc; cases hc; decide
    · rw [h] at hc
      cases dash with
      | true =>
        simp only [if_pos, List.singleton_append, List.head?_cons] at hc
        cases hc; decide
      | false =>
        rw [if_neg Bool.false_ne_true, List.nil_append] at hc
        rcases head?_replicate_space_append s2 _ with h2 | h2
        · rw [h2] at hc; cases hc; decide
        · rw [h2] at hc
          simp only [List.head?_cons] at hc
          cases hc; exact hdig
  have hsplit := takeWhile_append2 num _ h2 htw
  have hne : num.isEmpty = false := by
    cases num
    · exact absurd rfl h1
    · rfl
  rw [hshape]
  simp only [tryPair, hsplit.1, hsplit.2, hne, Bool.false_eq_true, if_false]
  cases dash with
  | true =>
    rw [if_pos rfl, List.singleton_append, dropWhile_replicate_space,
      List.dropWhile_cons_of_neg (by decide)]
    simp only [dashSkip, beq_self_eq_true, if_pos, dropWhile_replicate_space,
      List.dropWhile_cons_of_neg (by simp [hsp] : ¬pyIsSpace letter = true),
      letterOut, h3, if_true]
  | false =>
    rw [if_neg (by simp), List.nil_append, dropWhile_replicate_space,
      dropWhile_replicate_space,
      List.dropWhile_cons_of_neg (by simp [hsp] : ¬pyIsSpace letter = true)]
    simp only [dashSkip, hdash, Bool.false_eq_true, if_false, letterOut, h3,
      if_true]

theorem scanGo_nil (f : Nat) : scanGo f [] = [] := by cases f <;> rfl

theorem tryPair_rest_lt {cs rest : List Char} {q : List Char × Char}
    (h : tryPair cs = some (q, rest)) : rest.length < cs.length := by
  simp only [tryPair] at h
  by_cases hd : (cs.takeWhile Char.isDigit).isEmpty
  · rw [if_pos hd] at h; cases h
  · rw [if_neg hd] at h
    have h0 : (cs.dropWhile Char.isDigit).length < cs.length := by
      cases cs with
      | nil => simp at hd
      | cons c cs' =>
        by_cases hpc : Char.isDigit c
        · rw [List.dropWhile_cons_of_pos hpc]
          exact Nat.lt_succ_of_le (length_dropWhile_le _ _)
        · rw [List.takeWhile_cons_of_neg hpc] at hd; simp at hd
    have h1 : ((cs.dropWhile Char.isDigit).dropWhile pyIsSpace).length < cs.length :=
      lt_of_le_of_lt (length_dropWhile_le _ _) h0
    rcases hr2 : (cs.dropWhile Char.isDigit).dropWhile pyIsSpace with _ | ⟨c, t⟩
    · rw [hr2] at h
      simp [dashSkip, letterOut] at h
    · rw [hr2] at h1
      rw [hr2] at h
      simp only [dashSkip] at h
      by_cases hcd : (c == '-') = true
      · rw [if_pos hcd] at h
        have h2 : (t.dropWhile pyIsSpace).length ≤ t.length := length_dropWhile_le _ _
        rcases hr4 : t.dropWhile pyIsSpace with _ | ⟨c2, u⟩
        · rw [hr4] at h; simp [letterOut] at h
        · rw [hr4] at h h2
          simp only [letterOut] at h
          by_cases hla : isAnsLetter c2 = true
          · rw [if_pos hla] at h
            simp only [Option.some.injEq, Prod.mk.injEq] at h
            obtain ⟨-, hu⟩ := h
            subst hu
            simp only [List.length_cons] at h1 h2
            omega
          · rw [if_neg hla] at h; cases h
      · rw [if_neg hcd] at h
        simp only [letterOut] at h
        by_cases hla : isAnsLetter c = true
        · rw [if_pos hla] at h
          simp only [Option.some.injEq, Prod.mk.injEq] at h
          obtain ⟨-, hu⟩ := h
          subst hu
          simp only [List.length_cons] at h1
          omega
        · rw [if_neg hla] at h; cases h

theorem scanGo_fuel (f1 : Nat) : ∀ (cs : List Char) (f2 : Nat),
    cs.length ≤ f1 → cs.length ≤ f2 → scanGo f1 cs = scanGo f2 cs := by
  induction f1 with
  | zero =>
    intro cs f2 hl _
    have : cs = [] := List.eq_nil_of_length_eq_zero (Nat.le_zero.mp hl)
    subst this
    rw [scanGo_nil, scanGo_nil]
  | succ f ih =>
    intro cs f2 h1 h2
    cases cs with
    | nil => rw [scanGo_nil, scanGo_nil]
    | cons c cs' =>
      rcases f2 with _ | f2'
      · simp at h2
      · simp only [List.length_cons] at h1 h2
        show scanGo (f + 1) (c :: cs') = scanGo (f2' + 1) (c :: cs')
        simp only [scanGo]
        rcases htp : tryPair (c :: cs') with _ | ⟨q, rest⟩
        · exact ih cs' f2' (by omega) (by omega)
        · have hlt := tryPair_rest_lt htp
          simp only [List.length_cons] at hlt
          show q :: scanGo f rest = q :: scanGo f2' rest
          rw [ih rest f2' (by omega) (by omega)]

theorem tryPair_none (c : Char) (cs : List Char) (h : Char.isDigit c = false) :
    tryPair (c :: cs) = none := by
  have ht : (c :: cs).takeWhile Char.isDigit = [] :=
    List.takeWhile_cons_of_neg (by simp [h])
  simp only [tryPair, ht, List.isEmpty_nil, if_pos]

theorem scanGo_skip (sep : List Char) : ∀ (rest : List Char) (fuel : Nat),
    (sep ++ rest).length ≤ fuel → (∀ c ∈ sep, Char.isDigit c = false) →
    scanGo fuel (sep ++ rest) = scanGo rest.length rest := by
  induction sep with
  | nil =>
    intro rest fuel h1 _
    simp only [List.nil_append] at h1 ⊢
    exact scanGo_fuel fuel rest rest.length h1 le_rfl
  | cons c sep' ih =>
    intro rest fuel h1 hnd
    rcases fuel with _ | f
    · simp at h1
    · rw [List.cons_append]
      show scanGo (f + 1) (c :: (sep' ++ rest)) = _
      simp only [scanGo, tryPair_none c _ (hnd c (List.mem_cons_self _ _))]
      exact ih rest f (by simp at h1 ⊢; omega)
        (fun x hx => hnd x (List.mem_cons_of_mem _ hx))

theorem scanPairs_mkMessage : ∀ (ps : List (PairTok × List Char)) (lead : List Char),
    (∀ c ∈ lead, Char.isDigit c = false) →
    (∀ q ∈ ps, (q.1.num ≠ [] ∧ (∀ c ∈ q.1.num, Char.isDigit c = true))
      ∧ isAnsLetter q.1.letter = true
      ∧ (∀ c ∈ q.2, Char.isDigit c = false)) →
    scanPairs (mkMessage lead ps) = ps.map (fun q => (q.1.num, q.1.letter)) := by
  intro ps
  induction ps with
  | nil =>
    intro lead hlead _
    show scanGo (mkMessage lead []).length (mkMessage lead []) = []
    have hm : mkMessage lead [] = lead ++ [] := (List.append_nil lead).symm
    rw [hm, scanGo_skip lead [] _ le_rfl hlead]
    rfl
  | cons q ps' ih =>
    intro lead hlead hps
    obtain ⟨p, sep⟩ := q
    obtain ⟨⟨hn1, hn2⟩, hl, hs⟩ := hps (p, sep) (List.mem_cons_self _ _)
    have hps' := fun r hr => hps r (List.mem_cons_of_mem _ hr)
    dsimp only at hn1 hn2 hl hs
    obtain ⟨n0, num', hnum⟩ := List.exists_cons_of_ne_nil hn1
    show scanGo (mkMessage lead ((p, sep) :: ps')).length
        (mkMessage lead ((p, sep) :: ps'))
      = (p.num, p.letter) :: ps'.map (fun r => (r.1.num, r.1.letter))
    have hm : mkMessage lead ((p, sep) :: ps')
        = lead ++ (mkPair p ++ mkMessage sep ps') := rfl
    rw [hm, scanGo_skip lead _ _ le_rfl hlead]
    have hcons : mkPair p ++ mkMessage sep ps'
        = n0 :: (num' ++ (List.replicate p.s1 ' ' ++ ((if p.dash then ['-'] else []) ++
            (List.replicate p.s2 ' ' ++ (p.letter :: mkMessage sep ps'))))) := by
      simp [mkPair, hnum, List.append_assoc, List.cons_append]
    have htp : tryPair (mkPair p ++ mkMessage sep ps')
        = some ((p.num, p.letter), mkMessage sep ps') :=
      tryPair_mkPair p.num p.s1 p.dash p.s2 p.letter _ hn1 hn2 hl
    rw [hcons] at htp ⊢
    rw [List.length_cons]
    simp only [scanGo, htp]
    show (p.num, p.letter) :: scanGo _ (mkMessage sep ps') = _
    have hle : (mkMessage sep ps').length ≤ (num' ++ (List.replicate p.s1 ' '
        ++ ((if p.dash then ['-'] else []) ++ (List.replicate p.s2 ' '
        ++ (p.letter :: mkMessage sep ps'))))).length := by
      simp [List.length_append]
      omega
    rw [scanGo_fuel _ _ (mkMessage sep ps').length hle le_rfl]
    exact congrArg _ (ih sep hs hps')

/-! ### Lowercasing a script message -/

def lowerTok (p : PairTok) : PairTok :=
  ⟨pyLower p.num, p.s1, p.dash, p.s2, pyLowerChar p.letter⟩

theorem pyLower_append (xs ys : List Char) :
    pyLower (xs ++ ys) = pyLower xs ++ pyLower ys := List.map_append _ _ _

theorem pyLower_mkPair (p : PairTok) :
    pyLower (mkPair p) = mkPair (lowerTok p) := by
  cases hd : p.dash <;>
    simp [mkPair, lowerTok, pyLower, List.map_append, List.map_replicate, hd,
      show pyLowerChar ' ' = ' ' from rfl, show pyLowerChar '-' = '-' from rfl]

theorem pyLower_mkMessage : ∀ (ps : List (PairTok × List Char)) (lead : List Char),
    pyLower (mkMessage lead ps)
      = mkMessage (pyLower lead) (ps.map (fun q => (lowerTok q.1, pyLower q.2))) := by
  intro ps
  induction ps with
  | nil => intro lead; rfl
  | cons q ps' ih =>
    intro lead
    obtain ⟨p, sep⟩ := q
    show pyLower (lead ++ (mkPair p ++ mkMessage sep ps')) = _
    rw [pyLower_append, pyLower_append, pyLower_mkPair, ih sep]
    rfl

/-! ### Keyword removal is the identity on colon-free messages -/

theorem pyReplaceDel_not_mem (needle : List Char) (c : Char) (hc : c ∈ needle) :
    ∀ (fuel : Nat) (hay : List Char), c ∉ hay →
      pyReplaceDel needle fuel hay = hay := by
  intro fuel
  induction fuel with
  | zero => intro hay _; rfl
  | succ f ih =>
    intro hay hnm
    cases hay with
    | nil => rfl
    | cons a as =>
      have hpre : ¬(needle ≠ [] ∧ needle.isPrefixOf (a :: as) = true) := by
        rintro ⟨-, hp⟩
        exact hnm (List.IsPrefix.subset (List.isPrefixOf_iff_prefix.mp hp) hc)
      simp only [pyReplaceDel, if_neg hpre]
      rw [ih as (fun hm => hnm (List.mem_cons_of_mem _ hm))]

theorem pyReplaceEmpty_not_mem (needle hay : List Char) (c : Char) (hc : c ∈ needle)
    (h : c ∉ hay) : pyReplaceEmpty needle hay = hay :=
  pyReplaceDel_not_mem needle c hc hay.length hay h

theorem removeKeywords_eq (msg : List Char) (h : ':' ∉ pyLower msg)
    (hid : pyLower (pyLower msg) = pyLower msg) :
    removeKeywords msg = pyLower msg := by
  simp only [removeKeywords, removalKeywords, List.foldl_cons, List.foldl_nil]
  rw [pyReplaceEmpty_not_mem _ _ ':' (by decide) h]
  rw [hid, pyReplaceEmpty_not_mem _ _ ':' (by decide) h]
  rw [hid, pyReplaceEmpty_not_mem _ _ ':' (by decide) h]
  rw [hid, pyReplaceEmpty_not_mem _ _ ':' (by decide) h]
  rw [hid, pyReplaceEmpty_not_mem _ _ ':' (by decide) h]

/-- **C10** (implicit behaviour of `_extract_answers`): on a message built
from more than 10 `number[-]letter` answer pairs (dash optional, letters in
either case, arbitrary digit-free separator text between pairs and a
digit-free colon-free lead), the extractor keeps exactly the first 10 pairs
in order of appearance, rendered dash-separated and comma-joined with the
letter uppercased, and silently discards every pair after the tenth. -/
theorem C10_extract_first_ten (lead : List Char) (ps : List (PairTok × List Char))
    (h1 : ∀ c ∈ lead, Char.isDigit (pyLowerChar c) = false)
    (h2 : ∀ q ∈ ps,
      (q.1.num ≠ [] ∧ ∀ c ∈ q.1.num, Char.isDigit c = true ∧ pyLowerChar c = c)
      ∧ isAnsLetter (pyLowerChar q.1.letter) = true
      ∧ (∀ c ∈ q.2, Char.isDigit (pyLowerChar c) = false))
    (h3 : ':' ∉ pyLower (mkMessage lead ps))
    (h4 : pyLower (pyLower (mkMessage lead ps)) = pyLower (mkMessage lead ps))
    (h5 : 10 < ps.length) :
    extractAnswers (mkMessage lead ps)
      = some (joinComma ((ps.take 10).map
          (fun q => q.1.num ++ '-' :: [pyUpperChar (pyLowerChar q.1.letter)]))) := by
  have hscan : scanPairs (removeKeywords (mkMessage lead ps))
      = ps.map (fun q => (q.1.num, pyLowerChar q.1.letter)) := by
    rw [removeKeywords_eq _ h3 h4, pyLower_mkMessage, scanPairs_mkMessage]
    · rw [List.map_map]
      apply List.map_congr_left
      intro q hq
      obtain ⟨⟨hn1, hn2⟩, -, -⟩ := h2 q hq
      have hnum : pyLower q.1.num = q.1.num := by
        calc pyLower q.1.num = q.1.num.map id :=
              List.map_congr_left (fun c hc => (hn2 c hc).2)
          _ = q.1.num := List.map_id _
      simp [lowerTok, hnum]
    · intro c hc
      obtain ⟨c0, hc0, rfl⟩ := List.mem_map.mp hc
      exact h1 c0 hc0
    · intro q hq
      obtain ⟨q0, hq0, rfl⟩ := List.mem_map.mp hq
      obtain ⟨⟨hn1, hn2⟩, hl, hsep⟩ := h2 q0 hq0
      refine ⟨⟨?_, ?_⟩, hl, ?_⟩
      · simpa [lowerTok, pyLower] using hn1
      · intro c hc
        obtain ⟨c0, hc0, rfl⟩ := List.mem_map.mp hc
        rw [(hn2 c0 hc0).2]
        exact (hn2 c0 hc0).1
      · intro c hc
        obtain ⟨c0, hc0, rfl⟩ := List.mem_map.mp hc
        exact hsep c0 hc0
  unfold extractAnswers
  rw [hscan]
  dsimp only
  rw [List.length_map, if_neg (by omega)]
  rw [← List.map_take, List.map_map]
  rfl

def c10toks : List (PairTok × List Char) :=
  [(⟨"1".data, 0, true, 0, 'A'⟩, " ".data),
   (⟨"2".data, 0, false, 0, 'b'⟩, ", ".data),
   (⟨"3".data, 1, true, 1, 'C'⟩, " ".data),
   (⟨"4".data, 0, true, 0, 'd'⟩, " ".data),
   (⟨"5".data, 0, false, 0, 'a'⟩, " ".data),
   (⟨"6".data, 0, true, 0, 'B'⟩, " ".data),
   (⟨"7".data, 0, true, 0, 'c'⟩, " ".data),
   (⟨"8".data, 0, false, 0, 'D'⟩, " ".data),
   (⟨"9".data, 0, true, 0, 'a'⟩, " ".data),
   (⟨"10".data, 0, true, 0, 'b'⟩, " ".data),
   (⟨"11".data, 0, true, 0, 'c'⟩, " ".data),
   (⟨"12".data, 0, false, 0, 'd'⟩, [])]

theorem C10_extract_first_ten_witness :
    extractAnswers (mkMessage "tra loi ".data c10toks)
      = some (joinComma ((c10toks.take 10).map
          (fun q => q.1.num ++ '-' :: [pyUpperChar (pyLowerChar q.1.letter)]))) :=
  C10_extract_first_ten _ _ (by decide) (by decide) (by decide) (by decide)
    (by decide)

example :
    extractAnswers (mkMessage "tra loi ".data c10toks)
      = some "1-A,2-B,3-C,4-D,5-A,6-B,7-C,8-D,9-A,10-B".data := by decide

/-! ## The persistent store

The two SQLite tables (`quizzes`, `quiz_storage.py` lines 30-44;
`submissions`, `submission_manager.py` lines 25-36) are modelled as lists of
rows in insertion order; `id` is the PRIMARY KEY in both, so an INSERT with
an existing id raises `IntegrityError`.  `datetime.now()` is threaded as an
explicit `Day` (the `date LIKE 'YYYY-MM-DD%'` prefix tests on isoformat
timestamps compare the calendar day, modelled as `Day` equality).

The `QuizStorage` class shipped under `src/` predates the callers: `query.py`
and `app.py` call `save_quiz(..., answer_key=...)`, `get_latest_pending_quiz`
and `update_quiz_status`, and read `quiz["status"]` / `quiz["answer_key"]`,
none of which exist in `src/src/tools/quiz_storage.py`.  Those parts are
therefore *Modelled from the spec* (§3, §4.1) as noted on each definition;
everything else is translated from the source. -/

structure Day where
  y : Nat
  m : Nat
  d : Nat
  deriving DecidableEq

def natCharsGo : Nat → Nat → List Char → List Char
  | 0, _, acc => acc
  | fuel + 1, n, acc =>
    if n < 10 then Char.ofNat (48 + n) :: acc
    else natCharsGo fuel (n / 10) (Char.ofNat (48 + n % 10) :: acc)

/-- Decimal digits of `n`. -/
def natChars (n : Nat) : List Char := natCharsGo (n + 1) n []

def padLeft (w : Nat) (s : List Char) : List Char :=
  List.replicate (w - s.length) '0' ++ s

/-- Python `f"{n:03d}"`: zero-pad to at least three digits. -/
def pad3 (n : Nat) : List Char := padLeft 3 (natChars n)

def pad2 (n : Nat) : List Char := padLeft 2 (natChars n)

def pad4 (n : Nat) : List Char := padLeft 4 (natChars n)

/-- `now.strftime("%Y%m%d")`. -/
def ymd8 (t : Day) : List Char := pad4 t.y ++ pad2 t.m ++ pad2 t.d

/-- `f"quiz_{today}_{date_count:03d}"` (`quiz_storage.py` line 120).  Note
that the id does not mention the student. -/
def mkQuizId (t : Day) (n : Nat) : List Char :=
  "quiz_".data ++ ymd8 t ++ '_' :: pad3 n

/-- `f"sub_{today}_{daily_count:03d}"` (`submission_manager.py` line 151). -/
def mkSubId (t : Day) (n : Nat) : List Char :=
  "sub_".data ++ ymd8 t ++ '_' :: pad3 n

example : mkQuizId ⟨2025, 1, 10⟩ 1 = "quiz_20250110_001".data := by decide

/-- Modelled from the spec: the quiz `status` column (enum
{`pending`, `completed`}), missing from the `quiz_storage.py` under `src/`
but read and written by `query.py` and `app.py`. -/
inductive QStatus where
  | pending | completed
  deriving DecidableEq

structure QuizRow where
  id : List Char
  student_id : List Char
  day : Day
  date_count : Nat
  content : List Char
  subject : Option (List Char)
  topic : Option (List Char)
  difficulty : Option (List Char)
  /-- Modelled from the spec: the `answer_key` column (§3); `[]` plays the
  role of SQL NULL / Python falsy. -/
  answer_key : List Char
  /-- Modelled from the spec: see `QStatus`. -/
  status : QStatus
  deriving DecidableEq

structure SubRow where
  id : List Char
  quiz_id : List Char
  student_id : List Char
  student_answers : List Char
  score : Nat
  daily_count : Nat
  day : Day
  deriving DecidableEq

structure DB where
  quizzes : List QuizRow
  submissions : List SubRow
  deriving DecidableEq

def emptyDB : DB := ⟨[], []⟩

/-- `QuizStorage._get_today_count` (lines 69-84): this student's quizzes
created today. -/
def getTodayCount (db : DB) (sid : List Char) (t : Day) : Nat :=
  (db.quizzes.filter (fun q => decide (q.student_id = sid ∧ q.day = t))).length

inductive SaveError where
  | primaryKey
  deriving DecidableEq

/-- `QuizStorage.save_quiz` (lines 86-145): compute the per-student daily
count, generate `quiz_<YYYYMMDD>_<count:03d>`, INSERT.  A duplicate id hits
the PRIMARY KEY and the `IntegrityError` propagates (there is no
`try/except` in `save_quiz`).  The `answer_key` argument and the `pending`
status of the new row are *Modelled from the spec* (§3; `query.py` line 837
passes `answer_key=`, which this older `QuizStorage` does not accept). -/
def save_quiz (db : DB) (t : Day) (sid content : List Char)
    (subject topic difficulty : Option (List Char)) (answer_key : List Char) :
    Except SaveError (DB × List Char) :=
  let date_count := getTodayCount db sid t + 1
  let quiz_id := mkQuizId t date_count
  if db.quizzes.any (fun q => decide (q.id = quiz_id)) then
    .error .primaryKey
  else
    .ok ({ db with quizzes := db.quizzes ++
      [⟨quiz_id, sid, t, date_count, content, subject, topic, difficulty,
        answer_key, .pending⟩] }, quiz_id)

/-- The id `save_quiz` would generate (`quiz_storage.py` lines 115-120). -/
def genQuizId (db : DB) (sid : List Char) (t : Day) : List Char :=
  mkQuizId t (getTodayCount db sid t + 1)

/-- `QuizStorage.get_quiz` (lines 147-162). -/
def get_quiz (db : DB) (qid : List Char) : Option QuizRow :=
  db.quizzes.find? (fun q => decide (q.id = qid))

/-- Modelled from the spec: `get_latest_pending_quiz` (§4.1
`get_latest_pending`), called by `query.py` line 547 and `app.py` line 812
but absent from the `QuizStorage` under `src/`: the most recently created
`pending` quiz of the student, if any. -/
def get_latest_pending_quiz (db : DB) (sid : List Char) : Option QuizRow :=
  (db.quizzes.filter
    (fun q => decide (q.student_id = sid ∧ q.status = .pending))).getLast?

/-- Modelled from the spec: `update_quiz_status` (§4.1 `update_status`),
called by `query.py` line 624 and `app.py` line 893 but absent from the
`QuizStorage` under `src/`: set the status of the row with that id,
idempotently and with no transition validation. -/
def update_quiz_status (db : DB) (qid : List Char) (s : QStatus) : DB :=
  { db with quizzes :=
      db.quizzes.map (fun q => if q.id = qid then { q with status := s } else q) }

/-- `SubmissionManager._get_today_submission_count` (lines 61-76). -/
def getTodaySubCount (db : DB) (sid : List Char) (t : Day) : Nat :=
  (db.submissions.filter (fun s => decide (s.student_id = sid ∧ s.day = t))).length

/-- `SubmissionManager.check_quiz_submitted` (lines 285-298). -/
def check_quiz_submitted (db : DB) (qid sid : List Char) : Bool :=
  db.submissions.any (fun s => decide (s.quiz_id = qid ∧ s.student_id = sid))

inductive SubmitResult where
  | ok (submission_id : List Char) (score : Nat) (daily_count : Nat)
  | failure (err : List Char)
  deriving DecidableEq

/-- `SubmissionManager.submit_quiz` (lines 122-192): daily count, id
`sub_<YYYYMMDD>_<count:03d>`, grade, INSERT, commit.  The body is wrapped in
`try/except`: on the PRIMARY KEY violation for a duplicate submission id
nothing is committed and `{"success": False}` is returned.  Note there is
**no** already-submitted check here — that lives in the callers. -/
def submit_quiz (db : DB) (t : Day) (qid sid student_answers answer_key : List Char) :
    DB × SubmitResult :=
  let daily_count := getTodaySubCount db sid t + 1
  let submission_id := mkSubId t daily_count
  let score := grade_submission student_answers answer_key
  if db.submissions.any (fun s => decide (s.id = submission_id)) then
    (db, .failure "UNIQUE constraint failed".data)
  else
    ({ db with submissions := db.submissions ++
        [⟨submission_id, qid, sid, student_answers, score, daily_count, t⟩] },
      .ok submission_id score daily_count)

/-! ## The submission API endpoint (`app.py` lines 837-908) -/

inductive ApiResp where
  | notFound (qid : List Char)          -- 404 "Quiz not found"
  | notOwner                            -- 403 "Quiz does not belong to this student"
  | alreadySubmitted                    -- 400 "Quiz already submitted" (both checks)
  | badCount                            -- 400 "Answers must have exactly 10 items"
  | missingKey                          -- 500 "Quiz missing answer key"
  | submitFailed (err : List Char)      -- 500 from submit_quiz failure
  | ok (submission_id : List Char) (score : Nat) (daily_count : Nat)
  deriving DecidableEq

/-- `POST /api/submission/submit`: existence, ownership, status = pending,
no prior submission, 10 comma-separated items, answer key present; then
grade-and-insert and mark the quiz completed. -/
def submitEndpoint (db : DB) (t : Day) (qid sid answers : List Char) :
    ApiResp × DB :=
  match get_quiz db qid with
  | none => (.notFound qid, db)
  | some quiz =>
    if quiz.student_id ≠ sid then (.notOwner, db)
    else if quiz.status ≠ .pending then (.alreadySubmitted, db)
    else if check_quiz_submitted db qid sid then (.alreadySubmitted, db)
    else if answers = [] ∨ (pySplitChar ',' answers).length ≠ 10 then (.badCount, db)
    else if quiz.answer_key = [] then (.missingKey, db)
    else
      match submit_quiz db t qid sid answers quiz.answer_key with
      | (db1, .failure e) => (.submitFailed e, db1)
      | (db1, .ok subId score dc) =>
        (.ok subId score dc, update_quiz_status db1 qid .completed)

/-! ## The agent dispatch (`SimpleAgent.query`, query.py lines 511-1016)

External collaborators (the cheating guard `quiz_guard.QuizGuard` — a module
absent from `src/` —, the LLM topic extraction inside
`extract_topic_from_query`, the quiz generator call, the graph generator and
the chat completion) are oracle inputs fixed per request. -/

structure GuardVerdict where
  isBlocked : Bool
  reason : List Char
  deriving DecidableEq

structure TopicRaw where
  subject : Option (List Char)
  topic : Option (List Char)
  user_difficulty : Option (List Char)
  deriving DecidableEq

/-- Python truthiness of an optional string column/field. -/
def truthy : Option (List Char) → Bool
  | none => false
  | some s => !s.isEmpty

/-- The final check of `extract_topic_from_query` (`quiz_generator.py` lines
282-285): the raw LLM result is returned only when both subject and topic
are truthy. -/
def extractTopic (raw : Option TopicRaw) : Option TopicRaw :=
  match raw with
  | some r => if truthy r.subject ∧ truthy r.topic then some r else none
  | none => none

def ALLOWED_QUIZ_SUBJECTS : List (List Char) :=
  ["Toán".data, "Vật lý".data, "Hóa học".data, "Sinh học".data]

/-- Outcome of `QuizGenerator.generate_quiz`.  The `answer_key` field is
*Modelled from the spec* (§6: the generator returns
`{quiz_markdown, answer_key}`): the generator version under `src/` never
returns one, in which case the field is `[]` (falsy), exactly what
`result.get("answer_key")` yields in `query.py` line 832. -/
inductive GenResult where
  | ok (quiz_markdown answer_key difficulty : List Char)
  | failure (err : List Char)
  deriving DecidableEq

structure GraphResult where
  success : Bool
  file_path : List Char
  err : List Char
  deriving DecidableEq

structure Oracles where
  guard : GuardVerdict
  topicRaw : Option TopicRaw
  gen : GenResult
  equation : Option (List Char)
  graph : GraphResult
  llmReply : List Char
  deriving DecidableEq

inductive AgentResp where
  | nothingToSubmit                                      -- line 555
  | formatError (quizId : List Char)                     -- lines 580-589
  | quizNotFound (quizId : List Char)                    -- line 596
  | alreadySubmittedChat (quizId : List Char)            -- lines 600-605
  | missingAnswerKey                                     -- line 610
  | submitError (err : List Char)                        -- line 621
  | submitDurationError                                  -- lines 681/695-697
  | creationBlocked (subject topic : Option (List Char)) -- lines 704-715
  | cheatingBlocked (reason : List Char) (topic : Option (List Char)) -- 723-733
  | unclearRequest                                       -- lines 754-766
  | noSubject                                            -- lines 770-778
  | subjectNotAllowed (subject : List Char)              -- lines 783-799
  | missingKeyCreation                                   -- line 834
  | quizCreated (markdown : List Char)                   -- lines 851-855
  | generationFailed (err : List Char)                   -- lines 857-859
  | graphNoEquation                                      -- line 869
  | graphDone (equation path : List Char)                -- lines 881-891
  | graphFailed (err : List Char)                        -- lines 893-898
  | chatReply (text : List Char)                         -- search / direct LLM answer
  deriving DecidableEq

/-- The non-pending part of the dispatch: quiz creation (lines 746-859),
graphing (lines 862-898), search/chat (lines 900-1013). -/
def normalFlow (db : DB) (t : Day) (sid msg : List Char) (o : Oracles) :
    AgentResp × DB :=
  if shouldCreateQuiz msg then
    match extractTopic o.topicRaw with
    | none => (.unclearRequest, db)
    | some info =>
      if ¬ truthy info.subject then (.noSubject, db)
      else
        let subj := info.subject.getD []
        if ¬ subj ∈ ALLOWED_QUIZ_SUBJECTS then (.subjectNotAllowed subj, db)
        else
          match o.gen with
          | .failure e => (.generationFailed e, db)
          | .ok md key diff =>
            if key = [] then (.missingKeyCreation, db)
            else
              -- the save is wrapped in try/except (line 847): on failure the
              -- success text is still returned, with no id and no row
              match save_quiz db t sid md info.subject info.topic (some diff) key with
              | .error _ => (.quizCreated md, db)
              | .ok (db1, _) => (.quizCreated md, db1)
  else if shouldDrawGraph msg then
    match o.equation with
    | none => (.graphNoEquation, db)
    | some eq =>
      if o.graph.success then (.graphDone eq o.graph.file_path, db)
      else (.graphFailed o.graph.err, db)
  else (.chatReply o.llmReply, db)

/-- The submission branch under a pending quiz (lines 573-697).  After a
successful `submit_quiz` and status update, the success formatter reads
`result["duration"]` (line 681) — a key `submit_quiz` never returns — so the
`KeyError` is caught at line 695 and the user receives the error text
`"❌ Lỗi khi nộp bài: 'duration'"` although the submission row and the
status update were already committed. -/
def submissionFlow (db : DB) (t : Day) (sid msg : List Char) (pq : QuizRow) :
    AgentResp × DB :=
  match extractAnswers msg with
  | none => (.formatError pq.id, db)
  | some answers =>
    match get_quiz db pq.id with
    | none => (.quizNotFound pq.id, db)
    | some quiz =>
      if check_quiz_submitted db pq.id sid then (.alreadySubmittedChat pq.id, db)
      else if quiz.answer_key = [] then (.missingAnswerKey, db)
      else
        match submit_quiz db t pq.id sid answers quiz.answer_key with
        | (db1, .failure e) => (.submitError e, db1)
        | (db1, .ok _ _ _) =>
          (.submitDurationError, update_quiz_status db1 pq.id .completed)

/-- `SimpleAgent.query`: the early no-pending check (lines 549-558), then
the pending-quiz block (submission intent, creation block, cheating guard;
lines 566-736), then the normal flow. -/
def agentQuery (db : DB) (t : Day) (sid msg : List Char) (o : Oracles) :
    AgentResp × DB :=
  match get_latest_pending_quiz db sid with
  | none =>
    if shouldSubmitQuiz msg then (.nothingToSubmit, db)
    else normalFlow db t sid msg o
  | some pq =>
    if shouldSubmitQuiz msg then submissionFlow db t sid msg pq
    else if shouldCreateQuiz msg then (.creationBlocked pq.subject pq.topic, db)
    else if o.guard.isBlocked then (.cheatingBlocked o.guard.reason pq.topic, db)
    else normalFlow db t sid msg o

/-- How Python renders an optional column inside an f-string: `None` prints
as `"None"` (`dict(row).get('subject', 'N/A')` finds the key, so the
default is never used). -/
def renderOpt : Option (List Char) → List Char
  | some s => s
  | none => "None".data

/-- The creation-blocked message, query.py lines 704-715, verbatim. -/
def renderCreationBlocked (subject topic : Option (List Char)) : List Char :=
  "❌ Bạn không thể tạo đề mới khi đang có bài chưa nộp!\n\n📋 **Bài kiểm tra chưa hoàn thành:**\n- Môn: ".data
    ++ renderOpt subject
    ++ "\n- Chủ đề: ".data
    ++ renderOpt topic
    ++ "\n\n💡 **Để nộp bài, chat:**\n```\nNộp bài: 1-A,2-B,3-C,4-D,5-A,6-B,7-C,8-D,9-A,10-B\n```\nSau khi nộp xong, bạn có thể tạo đề mới! 📝\n".data

/-- The two user-facing mutating operations of the system: a chat request
through `SimpleAgent.query` and a REST submission through
`POST /api/submission/submit`.  (Every other endpoint in `app.py` is a pure
read of the two tables.) -/
inductive Op where
  | chat (sid msg : List Char) (o : Oracles)
  | apiSubmit (qid sid answers : List Char)

def stepOp (t : Day) (op : Op) (db : DB) : DB :=
  match op with
  | .chat sid msg o => (agentQuery db t sid msg o).2
  | .apiSubmit qid sid answers => (submitEndpoint db t qid sid answers).2

/-! ## Inversion and framing lemmas for the store operations -/

theorem submit_quiz_fst_quizzes (db : DB) (t : Day) (qid sid a k : List Char) :
    (submit_quiz db t qid sid a k).1.quizzes = db.quizzes := by
  simp only [submit_quiz]
  split <;> rfl

theorem submit_quiz_inv {db : DB} {t : Day} {qid sid a k : List Char} {db1 : DB}
    {subId : List Char} {score dc : Nat}
    (h : submit_quiz db t qid sid a k = (db1, .ok subId score dc)) :
    subId = mkSubId t dc ∧ dc = getTodaySubCount db sid t + 1
    ∧ score = grade_submission a k
    ∧ db1 = { db with submissions := db.submissions ++
        [⟨subId, qid, sid, a, score, dc, t⟩] } := by
  simp only [submit_quiz] at h
  split at h
  · simp at h
  · simp only [Prod.mk.injEq, SubmitResult.ok.injEq] at h
    obtain ⟨hdb, hsub, hscore, hdc⟩ := h
    subst hdc
    subst hsub
    subst hscore
    subst hdb
    exact ⟨rfl, rfl, rfl, rfl⟩

theorem save_quiz_ok_inv {db : DB} {t : Day} {sid content : List Char}
    {subject topic difficulty : Option (List Char)} {key : List Char}
    {db1 : DB} {qid : List Char}
    (h : save_quiz db t sid content subject topic difficulty key = .ok (db1, qid)) :
    qid = mkQuizId t (getTodayCount db sid t + 1)
    ∧ (∀ q ∈ db.quizzes, q.id ≠ qid)
    ∧ db1 = { db with quizzes := db.quizzes ++
        [⟨qid, sid, t, getTodayCount db sid t + 1, content, subject, topic,
          difficulty, key, .pending⟩] } := by
  simp only [save_quiz] at h
  split at h
  · cases h
  · rename_i hany
    simp only [Except.ok.injEq, Prod.mk.injEq] at h
    obtain ⟨hdb, hqid⟩ := h
    subst hqid
    subst hdb
    refine ⟨rfl, ?_, rfl⟩
    intro q hq he
    exact hany (List.any_eq_true.mpr ⟨q, hq, by simp [he]⟩)

theorem update_quiz_status_submissions (db : DB) (qid : List Char) (s : QStatus) :
    (update_quiz_status db qid s).submissions = db.submissions := rfl

theorem find?_status_update (l : List QuizRow) (qid tgt : List Char) (s : QStatus) :
    (l.map (fun q => if q.id = qid then { q with status := s } else q)).find?
        (fun q => decide (q.id = tgt))
      = (l.find? (fun q => decide (q.id = tgt))).map
          (fun q => if q.id = qid then { q with status := s } else q) := by
  rw [List.find?_map]
  have hpf : ((fun q : QuizRow => decide (q.id = tgt))
        ∘ (fun q => if q.id = qid then { q with status := s } else q))
      = (fun q : QuizRow => decide (q.id = tgt)) := by
    funext q
    simp only [Function.comp]
    by_cases hq : q.id = qid <;> simp [hq]
  rw [hpf]

theorem get_quiz_update (db : DB) (qid tgt : List Char) (s : QStatus) :
    get_quiz (update_quiz_status db qid s) tgt
      = (get_quiz db tgt).map
          (fun q => if q.id = qid then { q with status := s } else q) :=
  find?_status_update _ _ _ _

theorem get_quiz_addSub (db : DB) (rows : List SubRow) (tgt : List Char) :
    get_quiz { db with submissions := rows } tgt = get_quiz db tgt := rfl

theorem submitEndpoint_ok_inv {db : DB} {t : Day} {qid sid answers : List Char}
    {subId : List Char} {score dc : Nat} {db1 : DB}
    (h : submitEndpoint db t qid sid answers = (.ok subId score dc, db1)) :
    ∃ quiz, get_quiz db qid = some quiz ∧ quiz.student_id = sid
      ∧ quiz.status = .pending
      ∧ check_quiz_submitted db qid sid = false
      ∧ quiz.answer_key ≠ []
      ∧ score = grade_submission answers quiz.answer_key
      ∧ dc = getTodaySubCount db sid t + 1
      ∧ subId = mkSubId t dc
      ∧ db1 = update_quiz_status
          { db with submissions := db.submissions ++
              [⟨subId, qid, sid, answers, score, dc, t⟩] } qid .completed := by
  unfold submitEndpoint at h
  split at h
  · simp at h
  · rename_i quiz heq
    split at h
    · simp at h
    · rename_i hown
      split at h
      · simp at h
      · rename_i hpend
        split at h
        · simp at h
        · rename_i hchk
          split at h
          · simp at h
          · split at h
            · simp at h
            · rename_i hkey
              split at h
              · simp at h
              · rename_i db2 s2 sc2 dc2 heq2
                simp only [Prod.mk.injEq, ApiResp.ok.injEq] at h
                obtain ⟨⟨hs, hsc, hdc⟩, hdb⟩ := h
                subst hs
                subst hsc
                subst hdc
                subst hdb
                obtain ⟨h1, h2, h3, h4⟩ := submit_quiz_inv heq2
                exact ⟨quiz, heq, not_not.mp hown, not_not.mp hpend,
                  Bool.eq_false_iff.mpr hchk, hkey, h3, h2, h1, by rw [h4]⟩

theorem get_quiz_id {db : DB} {qid : List Char} {q : QuizRow}
    (h : get_quiz db qid = some q) : q.id = qid := by
  unfold get_quiz at h
  exact of_decide_eq_true
    (List.find?_some (p := fun r : QuizRow => decide (r.id = qid)) h)

theorem submit_quiz_failure_inv {db : DB} {t : Day} {qid sid a k : List Char}
    {db1 : DB} {e : List Char}
    (h : submit_quiz db t qid sid a k = (db1, .failure e)) : db1 = db := by
  simp only [submit_quiz] at h
  split at h
  · exact (Prod.mk.injEq .. ▸ h).1.symm
  · simp at h

theorem normalFlow_snd_cases (db : DB) (t : Day) (sid msg : List Char) (o : Oracles) :
    (normalFlow db t sid msg o).2 = db
    ∨ ∃ row, (normalFlow db t sid msg o).2 = { db with quizzes := db.quizzes ++ [row] }
        ∧ row.status = QStatus.pending
        ∧ ∀ q ∈ db.quizzes, q.id ≠ row.id := by
  unfold normalFlow
  split
  · split
    · exact Or.inl rfl
    · split
      · exact Or.inl rfl
      · dsimp only
        split
        · exact Or.inl rfl
        · split
          · exact Or.inl rfl
          · split
            · exact Or.inl rfl
            · split
              · exact Or.inl rfl
              · rename_i hsave
                obtain ⟨hqid, hfresh, hdb⟩ := save_quiz_ok_inv hsave
                exact Or.inr ⟨_, by rw [hdb], rfl, fun q hq he => hfresh q hq he⟩
  · split
    · split
      · exact Or.inl rfl
      · split
        · exact Or.inl rfl
        · exact Or.inl rfl
    · exact Or.inl rfl

theorem submissionFlow_snd_cases (db : DB) (t : Day) (sid msg : List Char)
    (pq : QuizRow) :
    (submissionFlow db t sid msg pq).2 = db
    ∨ ∃ sub : SubRow, sub.quiz_id = pq.id
        ∧ (submissionFlow db t sid msg pq).2
            = update_quiz_status { db with submissions := db.submissions ++ [sub] }
                pq.id QStatus.completed := by
  unfold submissionFlow
  split
  · exact Or.inl rfl
  · split
    · exact Or.inl rfl
    · split
      · exact Or.inl rfl
      · split
        · exact Or.inl rfl
        · split
          · rename_i hsq
            exact Or.inl (submit_quiz_failure_inv hsq)
          · rename_i hsq
            obtain ⟨hsub, hdc, hsc, hdb1⟩ := submit_quiz_inv hsq
            exact Or.inr ⟨_, rfl, by rw [hdb1]⟩

theorem submitEndpoint_snd_cases (db : DB) (t : Day) (qid sid answers : List Char) :
    (submitEndpoint db t qid sid answers).2 = db
    ∨ ∃ sub : SubRow, sub.quiz_id = qid
        ∧ (submitEndpoint db t qid sid answers).2
            = update_quiz_status { db with submissions := db.submissions ++ [sub] }
                qid QStatus.completed := by
  unfold submitEndpoint
  split
  · exact Or.inl rfl
  · split
    · exact Or.inl rfl
    · split
      · exact Or.inl rfl
      · split
        · exact Or.inl rfl
        · split
          · exact Or.inl rfl
          · split
            · exact Or.inl rfl
            · split
              · rename_i hsq
                exact Or.inl (submit_quiz_failure_inv hsq)
              · rename_i hsq
                obtain ⟨hsub, hdc, hsc, hdb1⟩ := submit_quiz_inv hsq
                exact Or.inr ⟨_, rfl, by rw [hdb1]⟩

/-- Every state transition of the system is one of: no change, appending a
fresh `pending` quiz row, or marking one quiz completed while appending one
submission row for it. -/
theorem stepOp_cases (t : Day) (op : Op) (db : DB) :
    stepOp t op db = db
    ∨ (∃ row, stepOp t op db = { db with quizzes := db.quizzes ++ [row] }
        ∧ row.status = QStatus.pending
        ∧ ∀ q ∈ db.quizzes, q.id ≠ row.id)
    ∨ (∃ qid sub, sub.quiz_id = qid
        ∧ stepOp t op db
            = update_quiz_status { db with submissions := db.submissions ++ [sub] }
                qid QStatus.completed) := by
  cases op with
  | apiSubmit qid sid answers =>
    simp only [stepOp]
    rcases submitEndpoint_snd_cases db t qid sid answers with h | ⟨sub, hq, h⟩
    · exact Or.inl h
    · exact Or.inr (Or.inr ⟨qid, sub, hq, h⟩)
  | chat sid msg o =>
    simp only [stepOp]
    unfold agentQuery
    split
    · split
      · exact Or.inl rfl
      · rcases normalFlow_snd_cases db t sid msg o with h | hr
        · exact Or.inl h
        · exact Or.inr (Or.inl hr)
    · rename_i pq hpq
      split
      · rcases submissionFlow_snd_cases db t sid msg pq with h | ⟨sub, hq, h⟩
        · exact Or.inl h
        · exact Or.inr (Or.inr ⟨pq.id, sub, hq, h⟩)
      · split
        · exact Or.inl rfl
        · split
          · exact Or.inl rfl
          · rcases normalFlow_snd_cases db t sid msg o with h | hr
            · exact Or.inl h
            · exact Or.inr (Or.inl hr)

/-! ## C3: duplicate submissions -/

/-- **C3** (duplicate submit rejected, spec §4.2 and P6): after a successful
REST submission the `(quiz_id, student_id)` pair is recorded as submitted, a
second call with identical arguments returns `AlreadySubmitted` and leaves
the store untouched — so the single submission row written by the first call
(and the score in it) is preserved — and, in general, the submit endpoint
rejects with `AlreadySubmitted` whenever a submission for the pair already
exists (for an owned quiz). -/
theorem C3_already_submitted {db : DB} {t : Day} (t2 : Day)
    {qid sid answers subId : List Char} {score dc : Nat} {db1 : DB}
    (hok : submitEndpoint db t qid sid answers = (.ok subId score dc, db1)) :
    check_quiz_submitted db1 qid sid = true
    ∧ submitEndpoint db1 t2 qid sid answers = (.alreadySubmitted, db1)
    ∧ db1.submissions = db.submissions ++ [⟨subId, qid, sid, answers, score, dc, t⟩]
    ∧ (∀ (dbx : DB) (tx : Day) (q : QuizRow), get_quiz dbx qid = some q →
        q.student_id = sid → check_quiz_submitted dbx qid sid = true →
        submitEndpoint dbx tx qid sid answers = (.alreadySubmitted, dbx)) := by
  obtain ⟨quiz, heq, hown, hpend, hchk, hkey, hsc, hdc, hsub, hdb1⟩ :=
    submitEndpoint_ok_inv hok
  have hsubs : db1.submissions
      = db.submissions ++ [⟨subId, qid, sid, answers, score, dc, t⟩] := by
    rw [hdb1, update_quiz_status_submissions]
  have hget1 : get_quiz db1 qid = some { quiz with status := QStatus.completed } := by
    rw [hdb1, get_quiz_update, get_quiz_addSub, heq]
    simp [get_quiz_id heq]
  refine ⟨?_, ?_, hsubs, ?_⟩
  · unfold check_quiz_submitted
    rw [hsubs, List.any_append]
    simp
  · simp [submitEndpoint, hget1, hown]
  · intro dbx tx q hq hqsid hqchk
    by_cases hst : q.status = QStatus.pending
    · simp [submitEndpoint, hq, hqsid, hst, hqchk]
    · simp [submitEndpoint, hq, hqsid, hst]

def c3t : Day := ⟨2025, 1, 10⟩

def c3key : List Char := "1-A,2-B,3-C,4-D,5-A,6-B,7-C,8-D,9-A,10-B".data

def c3quiz : QuizRow :=
  ⟨"quiz_20250110_001".data, "sv1".data, c3t, 1, "content".data,
    some "Toán".data, some "Hàm số".data, some "dễ".data, c3key, .pending⟩

def c3db : DB := ⟨[c3quiz], []⟩

def c3row : SubRow :=
  ⟨"sub_20250110_001".data, "quiz_20250110_001".data, "sv1".data, c3key, 10, 1, c3t⟩

def c3db1 : DB := ⟨[{ c3quiz with status := .completed }], [c3row]⟩

theorem C3_already_submitted_witness :
    submitEndpoint c3db c3t "quiz_20250110_001".data "sv1".data c3key
        = (.ok "sub_20250110_001".data 10 1, c3db1)
    ∧ (check_quiz_submitted c3db1 "quiz_20250110_001".data "sv1".data = true
      ∧ submitEndpoint c3db1 c3t "quiz_20250110_001".data "sv1".data c3key
          = (.alreadySubmitted, c3db1)
      ∧ c3db1.submissions = c3db.submissions ++ [⟨"sub_20250110_001".data,
          "quiz_20250110_001".data, "sv1".data, c3key, 10, 1, c3t⟩]
      ∧ (∀ (dbx : DB) (tx : Day) (q : QuizRow),
          get_quiz dbx "quiz_20250110_001".data = some q →
          q.student_id = "sv1".data →
          check_quiz_submitted dbx "quiz_20250110_001".data "sv1".data = true →
          submitEndpoint dbx tx "quiz_20250110_001".data "sv1".data c3key
            = (.alreadySubmitted, dbx))) :=
  ⟨by decide, C3_already_submitted c3t (by decide)⟩

/-! ## C4: pending → completed on successful submit -/

/-- **C4** (status transition, spec P5 and §3): a successful REST submission
flips the referenced quiz from `pending` to `completed`; if that quiz was
the student's only pending one, `get_latest_pending_quiz` afterwards returns
`none`; every quiz enters the store with status `pending` (shown for
`save_quiz`); and along any system operation a status change is always
`pending → completed` and always comes with exactly one new submission row
for that quiz — so a quiz transitions to `completed` only as a side effect
of a successful submission. -/
theorem C4_pending_to_completed {db : DB} {t : Day}
    {qid sid answers subId : List Char} {score dc : Nat} {db1 : DB}
    (hok : submitEndpoint db t qid sid answers = (.ok subId score dc, db1))
    (honly : ∀ r ∈ db.quizzes, r.student_id = sid → r.status = QStatus.pending →
      r.id = qid) :
    (∃ quiz, get_quiz db qid = some quiz ∧ quiz.status = QStatus.pending
        ∧ get_quiz db1 qid = some { quiz with status := QStatus.completed })
    ∧ get_latest_pending_quiz db1 sid = none
    ∧ (∀ (db0 : DB) (t0 : Day) (sid0 content : List Char)
        (subject topic difficulty : Option (List Char)) (key : List Char)
        (db0x : DB) (qid0 : List Char),
        save_quiz db0 t0 sid0 content subject topic difficulty key
            = .ok (db0x, qid0) →
        ∃ row, get_quiz db0x qid0 = some row ∧ row.status = QStatus.pending)
    ∧ (∀ (t0 : Day) (op : Op) (db0 : DB) (tgt : List Char) (q qx : QuizRow),
        get_quiz db0 tgt = some q → get_quiz (stepOp t0 op db0) tgt = some qx →
        qx.status ≠ q.status →
        q.status = QStatus.pending ∧ qx.status = QStatus.completed
        ∧ ∃ r, (stepOp t0 op db0).submissions = db0.submissions ++ [r]
            ∧ r.quiz_id = tgt) := by
  obtain ⟨quiz, heq, hown, hpend, hchk, hkey, hsc, hdc, hsub, hdb1⟩ :=
    submitEndpoint_ok_inv hok
  have hget1 : get_quiz db1 qid = some { quiz with status := QStatus.completed } := by
    rw [hdb1, get_quiz_update, get_quiz_addSub, heq]
    simp [get_quiz_id heq]
  have hq1 : db1.quizzes = db.quizzes.map
      (fun q => if q.id = qid then { q with status := QStatus.completed } else q) := by
    rw [hdb1]
    rfl
  refine ⟨⟨quiz, heq, hpend, hget1⟩, ?_, ?_, ?_⟩
  · unfold get_latest_pending_quiz
    rw [hq1]
    have hfil : (db.quizzes.map
        (fun q => if q.id = qid then { q with status := QStatus.completed } else q)).filter
          (fun q => decide (q.student_id = sid ∧ q.status = QStatus.pending))
        = ([] : List QuizRow) := by
      rw [List.filter_eq_nil_iff]
      intro x hx
      obtain ⟨r, hr, rfl⟩ := List.mem_map.mp hx
      by_cases hid : r.id = qid
      · simp [hid]
      · simp only [if_neg hid, decide_eq_true_eq, not_and]
        intro hsid hst
        exact hid (honly r hr hsid hst)
    rw [hfil]
    rfl
  · intro db0 t0 sid0 content subject topic difficulty key db0x qid0 hsave
    obtain ⟨hqid0, hfresh, hdbx⟩ := save_quiz_ok_inv hsave
    subst hqid0
    refine ⟨⟨mkQuizId t0 (getTodayCount db0 sid0 t0 + 1), sid0, t0,
      getTodayCount db0 sid0 t0 + 1, content, subject, topic, difficulty, key,
      QStatus.pending⟩, ?_, rfl⟩
    rw [hdbx]
    unfold get_quiz
    dsimp only
    rw [List.find?_append]
    have hnone : db0.quizzes.find?
        (fun q => decide (q.id = mkQuizId t0 (getTodayCount db0 sid0 t0 + 1)))
        = none :=
      List.find?_eq_none.mpr (fun x hx => by simp [hfresh x hx])
    rw [hnone]
    simp [List.find?]
  · intro t0 op db0 tgt q qx hq hqx hne
    rcases stepOp_cases t0 op db0 with hcase | ⟨row, hcase, hrowst, hfresh⟩
      | ⟨qid0, sub, hsubid, hcase⟩
    · rw [hcase, hq] at hqx
      obtain rfl : q = qx := Option.some.inj hqx
      exact absurd rfl (Ne.symm hne)
    · rw [hcase] at hqx
      unfold get_quiz at hq hqx
      dsimp only at hqx
      rw [List.find?_append, hq] at hqx
      simp at hqx
      exact absurd (congrArg QuizRow.status hqx) (Ne.symm hne)
    · rw [hcase] at hqx
      rw [get_quiz_update, get_quiz_addSub, hq] at hqx
      simp only [Option.map_some'] at hqx
      have hfq := Option.some.inj hqx
      by_cases hid : q.id = qid0
      · rw [if_pos hid] at hfq
        subst hfq
        refine ⟨?_, rfl, sub, ?_, ?_⟩
        · cases hqstat : q.status
          · rfl
          · exact absurd (by simp [hqstat] :
              ({ q with status := QStatus.completed }).status = q.status) hne
        · rw [hcase, update_quiz_status_submissions]
        · rw [hsubid, ← hid]
          exact get_quiz_id hq
      · rw [if_neg hid] at hfq
        subst hfq
        exact absurd rfl hne

def c4t : Day := ⟨2025, 3, 4⟩

def c4key : List Char := "1-A,2-B,3-C,4-D,5-A,6-B,7-C,8-D,9-A,10-B".data

def c4quiz : QuizRow :=
  ⟨"quiz_20250304_001".data, "sv2".data, c4t, 1, "content".data,
    some "Vật lý".data, some "Tốc độ".data, some "khó".data, c4key, .pending⟩

def c4db : DB := ⟨[c4quiz], []⟩

def c4row : SubRow :=
  ⟨"sub_20250304_001".data, "quiz_20250304_001".data, "sv2".data, c4key, 10, 1, c4t⟩

def c4db1 : DB := ⟨[{ c4quiz with status := .completed }], [c4row]⟩

theorem C4_pending_to_completed_witness :
    (submitEndpoint c4db c4t "quiz_20250304_001".data "sv2".data c4key
        = (.ok "sub_20250304_001".data 10 1, c4db1)
      ∧ (∀ r ∈ c4db.quizzes, r.student_id = "sv2".data →
          r.status = QStatus.pending → r.id = "quiz_20250304_001".data))
    ∧ ((∃ quiz, get_quiz c4db "quiz_20250304_001".data = some quiz
          ∧ quiz.status = QStatus.pending
          ∧ get_quiz c4db1 "quiz_20250304_001".data
              = some { quiz with status := QStatus.completed })
      ∧ get_latest_pending_quiz c4db1 "sv2".data = none
      ∧ (∀ (db0 : DB) (t0 : Day) (sid0 content : List Char)
          (subject topic difficulty : Option (List Char)) (key : List Char)
          (db0x : DB) (qid0 : List Char),
          save_quiz db0 t0 sid0 content subject topic difficulty key
              = .ok (db0x, qid0) →
          ∃ row, get_quiz db0x qid0 = some row ∧ row.status = QStatus.pending)
      ∧ (∀ (t0 : Day) (op : Op) (db0 : DB) (tgt : List Char) (q qx : QuizRow),
          get_quiz db0 tgt = some q → get_quiz (stepOp t0 op db0) tgt = some qx →
          qx.status ≠ q.status →
          q.status = QStatus.pending ∧ qx.status = QStatus.completed
          ∧ ∃ r, (stepOp t0 op db0).submissions = db0.submissions ++ [r]
              ∧ r.quiz_id = tgt)) :=
  ⟨⟨by decide, by decide⟩,
    @C4_pending_to_completed c4db c4t "quiz_20250304_001".data "sv2".data c4key
      "sub_20250304_001".data 10 1 c4db1 (by decide) (by decide)⟩

/-! ## C5: quiz id format and uniqueness -/

theorem natCharsGo_length_le : ∀ (fuel n : Nat) (acc : List Char) (k : Nat),
    n < 10 ^ k → 1 ≤ k → (natCharsGo fuel n acc).length ≤ k + acc.length := by
  intro fuel
  induction fuel with
  | zero =>
    intro n acc k hk h1
    simp [natCharsGo]
  | succ f ih =>
    intro n acc k hk h1
    unfold natCharsGo
    split
    · simp only [List.length_cons]
      omega
    · rename_i hge
      obtain _ | k := k
      · exact absurd h1 (by omega)
      obtain _ | kp := k
      · exact absurd (by simpa using hk) hge
      · have hdiv : n / 10 < 10 ^ (kp + 1) := by
          rw [Nat.div_lt_iff_lt_mul (by norm_num : (0:Nat) < 10)]
          calc n < 10 ^ (kp + 1 + 1) := hk
          _ = 10 ^ (kp + 1) * 10 := by rw [pow_succ]
        have hrec := ih (n / 10) (Char.ofNat (48 + n % 10) :: acc) (kp + 1) hdiv
          (by omega)
        simp only [List.length_cons] at hrec
        omega

theorem natChars_length_le (n k : Nat) (hk : n < 10 ^ k) (h1 : 1 ≤ k) :
    (natChars n).length ≤ k := by
  simpa [natChars] using natCharsGo_length_le (n + 1) n [] k hk h1

theorem padLeft_length (w : Nat) (s : List Char) (h : s.length ≤ w) :
    (padLeft w s).length = w := by
  simp only [padLeft, List.length_append, List.length_replicate]
  omega

theorem pad3_length (n : Nat) (h : n ≤ 999) : (pad3 n).length = 3 := by
  have h3 : n < 10 ^ 3 := by
    have he : (10:Nat) ^ 3 = 1000 := by norm_num
    omega
  exact padLeft_length 3 _ (natChars_length_le n 3 h3 (by omega))

theorem pad2_length (n : Nat) (h : n ≤ 99) : (pad2 n).length = 2 := by
  have h2 : n < 10 ^ 2 := by
    have he : (10:Nat) ^ 2 = 100 := by norm_num
    omega
  exact padLeft_length 2 _ (natChars_length_le n 2 h2 (by omega))

theorem pad4_length (n : Nat) (h : n ≤ 9999) : (pad4 n).length = 4 := by
  have h4 : n < 10 ^ 4 := by
    have he : (10:Nat) ^ 4 = 10000 := by norm_num
    omega
  exact padLeft_length 4 _ (natChars_length_le n 4 h4 (by omega))

theorem ymd8_length (t : Day) (hy : t.y ≤ 9999) (hm : t.m ≤ 99) (hd : t.d ≤ 99) :
    (ymd8 t).length = 8 := by
  simp [ymd8, pad4_length t.y hy, pad2_length t.m hm, pad2_length t.d hd]

/-- **C5 amended**: the generated id has the documented shape
`quiz_<YYYYMMDD>_<NNN>` with an 8-character date and a 3-digit per-student
daily sequence (for realistic bounds), and every system operation preserves
distinctness of the stored ids (the PRIMARY KEY makes a colliding save fail
rather than store a duplicate).  However the id does **not** mention the
student, so the generated ids of two different students on the same day are
*not* distinct — see the counterexample. -/
theorem C5_id_format_and_uniqueness (db : DB) (t : Day) (sid : List Char) (op : Op)
    (hy : t.y ≤ 9999) (hm : t.m ≤ 99) (hd : t.d ≤ 99)
    (hn : getTodayCount db sid t ≤ 998)
    (hnodup : (db.quizzes.map QuizRow.id).Nodup) :
    genQuizId db sid t
        = "quiz_".data ++ ymd8 t ++ '_' :: pad3 (getTodayCount db sid t + 1)
    ∧ (ymd8 t).length = 8
    ∧ (pad3 (getTodayCount db sid t + 1)).length = 3
    ∧ ((stepOp t op db).quizzes.map QuizRow.id).Nodup := by
  refine ⟨rfl, ymd8_length t hy hm hd, pad3_length _ (by omega), ?_⟩
  rcases stepOp_cases t op db with hcase | ⟨row, hcase, hst, hfresh⟩
    | ⟨qid0, sub, hsubid, hcase⟩
  · rw [hcase]
    exact hnodup
  · rw [hcase]
    dsimp only
    rw [List.map_append, List.nodup_append]
    refine ⟨hnodup, by simp, ?_⟩
    intro a ha hmem
    obtain ⟨qa, hqa, rfl⟩ := List.mem_map.mp ha
    simp only [List.map_cons, List.map_nil, List.mem_cons, List.not_mem_nil,
      or_false] at hmem
    exact hfresh qa hqa hmem
  · rw [hcase]
    have hqz : (update_quiz_status { db with submissions := db.submissions ++ [sub] }
        qid0 QStatus.completed).quizzes
        = db.quizzes.map
            (fun q => if q.id = qid0 then { q with status := QStatus.completed } else q) :=
      rfl
    rw [hqz, List.map_map]
    have hco : (QuizRow.id ∘ fun q =>
        if q.id = qid0 then { q with status := QStatus.completed } else q)
        = QuizRow.id := by
      funext q
      simp only [Function.comp]
      split <;> rfl
    rw [hco]
    exact hnodup

def c5day : Day := ⟨2025, 1, 10⟩

def c5quizA : QuizRow :=
  ⟨"quiz_20250110_001".data, "a001".data, c5day, 1, "qA".data, none, none, none,
    "1-A".data, .pending⟩

def c5db : DB := ⟨[c5quizA], []⟩

instance {ε α : Type} [DecidableEq ε] [DecidableEq α] : DecidableEq (Except ε α) :=
  fun x y =>
    match x, y with
    | .error a, .error b =>
      if h : a = b then .isTrue (by rw [h]) else .isFalse (by simp [h])
    | .ok a, .ok b =>
      if h : a = b then .isTrue (by rw [h]) else .isFalse (by simp [h])
    | .error _, .ok _ => .isFalse (by simp)
    | .ok _, .error _ => .isFalse (by simp)

/-- **C5 counterexample**: student `a001` already stored
`quiz_20250110_001`; the id generated for a save by the *different* student
`b001` on the same day is the very same string (the id never mentions the
student and each student's daily count starts at 1), so the claimed
cross-student distinctness fails — the second save hits the PRIMARY KEY and
raises instead of storing a distinctly-named quiz. -/
theorem C5_counterexample :
    genQuizId c5db "b001".data c5day = "quiz_20250110_001".data
    ∧ c5quizA.id = "quiz_20250110_001".data
    ∧ c5quizA.student_id ≠ "b001".data
    ∧ save_quiz c5db c5day "b001".data "qB".data none none none "1-B".data
        = .error .primaryKey := by decide

theorem C5_id_format_and_uniqueness_witness :
    (c5day.y ≤ 9999 ∧ c5day.m ≤ 99 ∧ c5day.d ≤ 99
      ∧ getTodayCount c5db "a001".data c5day ≤ 998
      ∧ (c5db.quizzes.map QuizRow.id).Nodup)
    ∧ (genQuizId c5db "a001".data c5day
          = "quiz_".data ++ ymd8 c5day
              ++ '_' :: pad3 (getTodayCount c5db "a001".data c5day + 1)
      ∧ (ymd8 c5day).length = 8
      ∧ (pad3 (getTodayCount c5db "a001".data c5day + 1)).length = 3
      ∧ ((stepOp c5day (Op.apiSubmit "quiz_20250110_001".data "a001".data
            "1-A".data) c5db).quizzes.map QuizRow.id).Nodup) :=
  ⟨⟨by decide, by decide, by decide, by decide, by decide⟩,
    C5_id_format_and_uniqueness c5db c5day "a001".data
      (Op.apiSubmit "quiz_20250110_001".data "a001".data "1-A".data)
      (by decide) (by decide) (by decide) (by decide) (by decide)⟩

/-! ## C6: quiz creation blocked under a pending quiz -/

/-- **C6 amended** (query.py lines 700-715): with a pending quiz, a message
classified as quiz creation (and not as submission) is rejected
unconditionally and the store is untouched, so the student stays pending —
but the rejection message names the pending quiz's *subject and topic*, not
the still-open quiz id (see the counterexample). -/
theorem C6_creation_blocked {db : DB} (t : Day) {sid msg : List Char} {pq : QuizRow}
    (o : Oracles)
    (hpq : get_latest_pending_quiz db sid = some pq)
    (hnsub : shouldSubmitQuiz msg = false)
    (hcre : shouldCreateQuiz msg = true) :
    agentQuery db t sid msg o = (.creationBlocked pq.subject pq.topic, db) := by
  simp [agentQuery, hpq, hnsub, hcre]

def c6day : Day := ⟨2025, 1, 10⟩

def c6quiz : QuizRow :=
  ⟨"quiz_20250110_001".data, "sv1".data, c6day, 1, "content".data,
    some "Toán".data, none, none, "1-A".data, .pending⟩

def c6db : DB := ⟨[c6quiz], []⟩

def c6o : Oracles := ⟨⟨false, []⟩, none, .failure [], none, ⟨false, [], []⟩, []⟩

set_option maxRecDepth 4000 in
/-- **C6 counterexample**: the creation request is rejected, but the
rejection message rendered by query.py lines 704-715 contains the pending
quiz's subject and topic and *not* the still-open quiz id
`quiz_20250110_001` — the id occurs nowhere in the message text. -/
theorem C6_counterexample :
    agentQuery c6db c6day "sv1".data "tạo đề toán".data c6o
      = (.creationBlocked (some "Toán".data) none, c6db)
    ∧ pyIn "quiz_20250110_001".data
        (renderCreationBlocked (some "Toán".data) none) = false := by decide

theorem C6_creation_blocked_witness :
    (get_latest_pending_quiz c6db "sv1".data = some c6quiz
      ∧ shouldSubmitQuiz "tạo đề toán".data = false
      ∧ shouldCreateQuiz "tạo đề toán".data = true)
    ∧ agentQuery c6db c6day "sv1".data "tạo đề toán".data c6o
        = (.creationBlocked c6quiz.subject c6quiz.topic, c6db) :=
  ⟨⟨by decide, by decide, by decide⟩,
    C6_creation_blocked c6day c6o (by decide) (by decide) (by decide)⟩

/-! ## C7: fewer than 10 parsed pairs -/

/-- **C7** (query.py lines 577-589): with a pending quiz, a
submission-intent message from which fewer than 10 answer pairs parse gets
the explicit format-error response, and the request mutates nothing — no
submission row is inserted, no daily sequence number is consumed and the
quiz stays pending, since the returned store is exactly the input store. -/
theorem C7_format_error {db : DB} (t : Day) {sid msg : List Char} {pq : QuizRow}
    (o : Oracles)
    (hpq : get_latest_pending_quiz db sid = some pq)
    (hsub : shouldSubmitQuiz msg = true)
    (hfew : (scanPairs (removeKeywords msg)).length < 10) :
    extractAnswers msg = none
    ∧ agentQuery db t sid msg o = (.formatError pq.id, db)
    ∧ stepOp t (.chat sid msg o) db = db := by
  have hext : extractAnswers msg = none := by
    unfold extractAnswers
    dsimp only
    rw [if_pos hfew]
  have hq : agentQuery db t sid msg o = (.formatError pq.id, db) := by
    simp [agentQuery, hpq, hsub, submissionFlow, hext]
  exact ⟨hext, hq, by simp [stepOp, hq]⟩

def c7day : Day := ⟨2025, 1, 10⟩

def c7quiz : QuizRow :=
  ⟨"quiz_20250110_001".data, "sv1".data, c7day, 1, "content".data,
    some "Toán".data, none, none, "1-A".data, .pending⟩

def c7db : DB := ⟨[c7quiz], []⟩

def c7o : Oracles := ⟨⟨false, []⟩, none, .failure [], none, ⟨false, [], []⟩, []⟩

theorem C7_format_error_witness :
    (get_latest_pending_quiz c7db "sv1".data = some c7quiz
      ∧ shouldSubmitQuiz "Nộp bài: 1-A,2-B,3-C".data = true
      ∧ (scanPairs (removeKeywords "Nộp bài: 1-A,2-B,3-C".data)).length < 10)
    ∧ (extractAnswers "Nộp bài: 1-A,2-B,3-C".data = none
      ∧ agentQuery c7db c7day "sv1".data "Nộp bài: 1-A,2-B,3-C".data c7o
          = (.formatError c7quiz.id, c7db)
      ∧ stepOp c7day (.chat "sv1".data "Nộp bài: 1-A,2-B,3-C".data c7o) c7db
          = c7db) :=
  ⟨⟨by decide, by decide, by decide⟩,
    C7_format_error c7day c7o (by decide) (by decide) (by decide)⟩

/-! ## C8: user-facing error with a mutated store (code bug) -/

def c8t : Day := ⟨2025, 1, 10⟩

def c8key : List Char := "1-A,2-B,3-C,4-D,5-A,6-B,7-C,8-D,9-A,10-B".data

def c8quiz : QuizRow :=
  ⟨"quiz_20250110_001".data, "sv1".data, c8t, 1, "content".data,
    none, none, none, c8key, .pending⟩

def c8db : DB := ⟨[c8quiz], []⟩

def c8msg : List Char := "Nộp bài: 1-A,2-B,3-C,4-D,5-A,6-B,7-C,8-D,9-A,10-B".data

def c8o : Oracles := ⟨⟨false, []⟩, none, .failure [], none, ⟨false, [], []⟩, []⟩

def c8row : SubRow :=
  ⟨"sub_20250110_001".data, "quiz_20250110_001".data, "sv1".data, c8key, 10, 1, c8t⟩

def c8db1 : DB := ⟨[{ c8quiz with status := .completed }], [c8row]⟩

/-- **C8 code bug** (query.py lines 681 and 695): after a successful chat
submission the success formatter reads `result["duration"]`, a key
`submit_quiz` never returns; the `KeyError` is caught by the catch-all
`except` and the user receives the error text
`"❌ Lỗi khi nộp bài: 'duration'"` — yet by then the submission row was
already inserted and the quiz marked completed, so this user-facing error
response comes with a mutated store, contradicting the claimed
no-mutation-on-error policy. -/
theorem C8_partial_write_on_error :
    agentQuery c8db c8t "sv1".data c8msg c8o = (.submitDurationError, c8db1)
    ∧ c8db1 ≠ c8db
    ∧ c8db1.submissions.length = c8db.submissions.length + 1
    ∧ get_quiz c8db1 "quiz_20250110_001".data
        = some { c8quiz with status := .completed } := by decide

/-! ## C9: missing answer key aborts creation -/

/-- **C9** (query.py lines 823-844): when the generator result carries no
answer key — the falsy `[]`, which is exactly what
`result.get("answer_key")` yields for the generator version under `src/` —
quiz creation is a hard failure: the agent answers with the missing-key
error and returns the store unchanged, so no quiz row is ever persisted
without its answer key. -/
theorem C9_missing_key {db : DB} (t : Day) {sid msg : List Char} {o : Oracles}
    {info : TopicRaw} {md diff : List Char}
    (hnp : get_latest_pending_quiz db sid = none)
    (hnsub : shouldSubmitQuiz msg = false)
    (hcre : shouldCreateQuiz msg = true)
    (hti : extractTopic o.topicRaw = some info)
    (hsubj : truthy info.subject = true)
    (hallow : info.subject.getD [] ∈ ALLOWED_QUIZ_SUBJECTS)
    (hgen : o.gen = .ok md [] diff) :
    agentQuery db t sid msg o = (.missingKeyCreation, db) := by
  simp [agentQuery, hnp, hnsub, normalFlow, hcre, hti, hsubj, hallow, hgen]

def c9t : Day := ⟨2025, 1, 10⟩

def c9db : DB := ⟨[], []⟩

def c9info : TopicRaw := ⟨some "Toán".data, some "Hàm số".data, none⟩

def c9o : Oracles :=
  ⟨⟨false, []⟩, some c9info, .ok "MD".data [] "dễ".data, none, ⟨false, [], []⟩, []⟩

theorem C9_missing_key_witness :
    (get_latest_pending_quiz c9db "sv1".data = none
      ∧ shouldSubmitQuiz "tạo đề toán".data = false
      ∧ shouldCreateQuiz "tạo đề toán".data = true
      ∧ extractTopic c9o.topicRaw = some c9info
      ∧ truthy c9info.subject = true
      ∧ c9info.subject.getD [] ∈ ALLOWED_QUIZ_SUBJECTS
      ∧ c9o.gen = .ok "MD".data [] "dễ".data)
    ∧ agentQuery c9db c9t "sv1".data "tạo đề toán".data c9o
        = (.missingKeyCreation, c9db) :=
  ⟨⟨by decide, by decide, by decide, by decide, by decide, by decide, by decide⟩,
    @C9_missing_key c9db c9t "sv1".data "tạo đề toán".data c9o c9info
      "MD".data "dễ".data (by decide) (by decide) (by decide) (by decide)
      (by decide) (by decide) (by decide)⟩

end ChatbotKHCN
